import Mathlib

/-! # ODBCStatement (src/odbc_statement.cpp)

A shallow embedding of the statement wrapper of node-odbc: the four JavaScript
methods `prepare`, `bind`, `execute`, `close`, their four `Napi::AsyncWorker`
subclasses and `ODBCStatement::Free`.

Conventions of the embedding.

* The heap object `QueryData *data` is a record.  `delete data` in
  `ODBCStatement::Free` frees it while the statement and the workers keep the
  pointer: every later access goes to freed memory.  What is found there is not
  determined by the program; it is `External.Freed`, an arbitrary function of
  the environment and of the bytes the program left, and every statement about
  a run across a destroy holds for all such functions.  The contents are taken
  at the `delete`; from then on the memory holds them and what the program
  writes there.  The flag `deleted` records that the data has been freed.
* Everything the file calls but does not define (the ODBC driver functions, the
  `ODBC::` helpers of odbc.cpp, the constant `SQL_DESTROY` of odbc.h) is a field of `External`, a record of functions
  over an arbitrary driver state `σ`.
* Every call that leaves the file is appended to `World.calls`, every
  invocation of a JavaScript callback to `World.callbacks`.
* `Napi::Error::ThrowAsJavaScriptException` records a pending exception and
  returns to the caller, which is why `Prepare` and `Bind` return explicitly
  after it.  `Execute` and `Close` go on instead, into N-API calls that fail in
  that situation: the coercion `info[0].ToNumber()` with an exception pending,
  and the construction of a `Napi::AsyncWorker` from the empty
  `Napi::Function`.  The call ends there, with the exception and without a
  worker.
* JavaScript numbers are integers here; `Int32Value()`, the cast to
  `SQLSMALLINT` and the conversion to the `SQLUSMALLINT` parameter of
  `SQLFreeStmt` wrap around.
* `Napi::AsyncWorker`: `Queue()` schedules `Execute()`; when it has returned,
  `OnError` runs if `SetError` was called and `OnOK` otherwise.  None of the
  workers overrides `OnError`, whose default calls the callback with the error
  as only argument.  A worker whose `Execute` does not return (`none`) reaches
  neither of them: no callback is called.
* The process-wide mutex `ODBC::g_odbcMutex` is not modelled.
-/

namespace NodeOdbc

/-! ## Values of the ODBC headers -/

/-- The option SQL_CLOSE of SQLFreeStmt, 0 in sql.h. -/
def SQL_CLOSE : Int := 0

/-- The macro SQL_SUCCEEDED of sql.h, `(((rc)&(~1))==0)`: true for SQL_SUCCESS (0) and
SQL_SUCCESS_WITH_INFO (1), the two values listed in the header comment of the source. -/
def SQL_SUCCEEDED (rc : Int) : Bool := rc == 0 || rc == 1

/-- Conversion to SQLSMALLINT, a signed 16-bit integer: the cast `(SQLSMALLINT)x`. -/
def toSQLSMALLINT (n : Int) : Int := (n + 32768) % 65536 - 32768

/-- Conversion to SQLUSMALLINT, an unsigned 16-bit integer: what the `Option` parameter
of `SQLFreeStmt` receives from an `int` argument. -/
def toSQLUSMALLINT (n : Int) : Int := n % 65536

/-- Conversion of a JavaScript number to a 32-bit signed integer: `Int32Value()`. -/
def toInt32 (n : Int) : Int := (n + 2147483648) % 4294967296 - 2147483648

/-! ## JavaScript values -/

/-- An element of a JavaScript array passed to `bind`. -/
inductive Prim
  | null
  | undefined
  | boolean (b : Bool)
  | number (n : Int)
  | string (s : String)
  | other
  deriving DecidableEq, Repr

/-- A JavaScript value as seen through `Napi::Value`; functions are identified by a
number. -/
inductive JsValue
  | undefined
  | null
  | boolean (b : Bool)
  | number (n : Int)
  | string (s : String)
  | function (id : Nat)
  | array (elems : List Prim)
  | object
  deriving DecidableEq, Repr

/-- The test `Napi::Value::IsString`. -/
def JsValue.IsString : JsValue → Bool
  | .string _ => true
  | _ => false

/-- The test `Napi::Value::IsFunction`. -/
def JsValue.IsFunction : JsValue → Bool
  | .function _ => true
  | _ => false

/-- The test `Napi::Value::IsArray`. -/
def JsValue.IsArray : JsValue → Bool
  | .array _ => true
  | _ => false

/-- The test `Napi::Value::IsNumber`. -/
def JsValue.IsNumber : JsValue → Bool
  | .number _ => true
  | _ => false

/-- The text of a string value, `info[0].ToString()` after `IsString()` held. -/
def JsValue.ToString : JsValue → String
  | .string s => s
  | _ => ""

/-- The elements of an array value, `info[0].As<Napi::Array>()` after `IsArray()` held. -/
def JsValue.elements : JsValue → List Prim
  | .array xs => xs
  | _ => []

/-- The argument `info[i]` of a call: `undefined` past the last argument. -/
def arg (info : List JsValue) (i : Nat) : JsValue := info.getD i JsValue.undefined

/-! ## The statement data -/

/-- Modelled from the spec: the record `Parameter` of odbc.h, which is not among the
sources: direction, SQL type code, column size, decimal digits, nullability and the
value converted from the caller. -/
structure Parameter where
  InputOutputType : Int
  DataType : Int
  ColumnSize : Nat
  DecimalDigits : Int
  Nullable : Int
  value : Prim
  deriving DecidableEq, Repr

/-- A fresh descriptor, `new Parameter()`. -/
def Parameter.new : Parameter :=
  { InputOutputType := 0, DataType := 0, ColumnSize := 0, DecimalDigits := 0,
    Nullable := 0, value := Prim.undefined }

/-- The fields of `QueryData` (odbc.h) that the statement code reads or writes.
`hSTMT = 0` is the NULL handle, `parameters = none` the NULL array, `storedRows` the
result buffer filled by `ODBC::RetrieveData`. -/
structure QueryData where
  hSTMT : Nat
  sql : String
  parameterCount : Int
  parameters : Option (List Parameter)
  sqlReturnCode : Int
  storedRows : List (List String)
  deleted : Bool
  deriving DecidableEq, Repr

/-- One call that leaves odbc_statement.cpp, with the handle it was given and the
status it returned. -/
inductive Call
  | SQLPrepare (h : Nat) (sql : String) (rc : Int)
  | SQLNumParams (h : Nat) (rc : Int)
  | DescribeParameters (h : Nat) (count : Int) (rc : Int)
  | StoreBindValues (count : Nat)
  | BindParameters (h : Nat) (count : Int) (rc : Int)
  | SQLExecute (h : Nat) (rc : Int)
  | RetrieveData (h : Nat) (rc : Int)
  | SQLFreeStmt (h : Nat) (opt : Int) (rc : Int)
  | SQLFreeHandle (h : Nat) (rc : Int)
  | GetSQLError (h : Nat)
  deriving DecidableEq, Repr

/-- An argument handed to a JavaScript callback. -/
inductive CbArg
  | null
  | error (message : String)
  | boolean (b : Bool)
  | rows (r : List (List String))
  deriving DecidableEq, Repr

/-- One invocation of a JavaScript callback. -/
structure CallbackCall where
  callee : JsValue
  args : List CbArg
  deriving DecidableEq, Repr

/-- The statement object, the driver behind it and what has been observed so far. -/
structure World (σ : Type) where
  data : QueryData
  drv : σ
  calls : List Call
  callbacks : List CallbackCall
  deriving DecidableEq, Repr

/-- The code outside odbc_statement.cpp: the driver entry points (each takes and
returns the driver state), the helpers of odbc.cpp, the constant `SQL_DESTROY`, and the
heap.  `SQLNumParams` returns the status and what it wrote through the count pointer, if
anything. `DescribeParameters` and `StoreBindValues` return the new contents of the
descriptors they were handed. `RetrieveData` is handed the statement data and returns
the `sqlReturnCode` and the rows it left there. `GetSQLError` returns the text it built
from the diagnostic records of the handle. `Freed` is what a read of the statement data
finds once `delete data` has freed it, given the bytes the program left. -/
structure External (σ : Type) where
  SQL_DESTROY : Int
  SQLPrepare : σ → Nat → String → σ × Int
  SQLNumParams : σ → Nat → σ × Int × Option Int
  DescribeParameters : σ → Nat → List Parameter → Int → σ × Int × List Parameter
  StoreBindValues : List Prim → List Parameter → List Parameter
  BindParameters : σ → Nat → Option (List Parameter) → Int → σ × Int
  SQLExecute : σ → Nat → σ × Int
  RetrieveData : σ → QueryData → σ × Int × List (List String)
  ProcessDataForNapi : QueryData → List (List String)
  SQLFreeStmt : σ → Nat → Int → σ × Int
  SQLFreeHandle : σ → Nat → σ × Int
  GetSQLError : σ → Nat → String → σ × String
  Freed : σ → QueryData → QueryData

/-- The contents of an array of descriptor pointers after a helper wrote to the
descriptors: the helper receives the array by value, so the number of slots is the one
the caller allocated. -/
def overlay (old new : List Parameter) : List Parameter :=
  old.enum.map fun p => new.getD p.1 p.2

/-- The number `info[0].ToNumber().Int32Value()` of an argument that is a number. -/
def JsValue.Int32Value : JsValue → Int
  | .number n => toInt32 n
  | _ => 0

/-! ## Messages -/

def msgPrepareArgs : String := "Argument 0 must be a string , Argument 1 must be a function."
def msgBindArgs : String := "Function signature is: bind(array, function)"
def msgExecuteArgs : String := "execute: first argument must be a function"
def msgCloseArgs : String := "close takes two arguments (closeOption [int], callback [function])"
def msgPrepare : String := "[node-odbc] Error in Statement::PrepareAsyncWorker::Execute"
def msgBind : String := "[node-odbc] Error in Statement::BindAsyncWorker::Bind"
def msgBindCount : String := "[node-odbc] Error in Statement::BindAsyncWorker::Bind: The number of parameters in the prepared statement doesn't match the number of parameters passed to bind."
def msgExecute : String := "[node-odbc] Error in ODBCStatement::ExecuteAsyncWorker::Execute"
def msgClose : String := "[node-odbc] Error in Statement::CloseAsyncWorker::Execute"

/-! ## Small steps shared by the workers -/

/-- The statement `SetError(ODBC::GetSQLError(SQL_HANDLE_STMT, data->hSTMT, message))`:
the world after the diagnostic call, and the error text set on the worker. -/
def setErrorFromDriver {σ : Type} (ext : External σ) (w : World σ) (message : String) :
    World σ × Option String :=
  let r := ext.GetSQLError w.drv w.data.hSTMT message
  ({ w with drv := r.1, calls := w.calls ++ [Call.GetSQLError w.data.hSTMT] }, some r.2)

/-- The method `ODBCStatement::Free`.  After `delete data` the statement data is what
a read of the freed memory finds. -/
def ODBCStatement.Free {σ : Type} (ext : External σ) (w : World σ) : World σ :=
  if w.data.hSTMT ≠ 0 then
    let r1 := ext.SQLFreeStmt w.drv w.data.hSTMT SQL_CLOSE
    let r2 := ext.SQLFreeHandle r1.1 w.data.hSTMT
    let left : QueryData := { w.data with sqlReturnCode := r2.2, hSTMT := 0 }
    { w with
      drv := r2.1
      data := { ext.Freed r2.1 left with deleted := true }
      calls := w.calls ++ [Call.SQLFreeStmt w.data.hSTMT SQL_CLOSE r1.2,
                           Call.SQLFreeHandle w.data.hSTMT r2.2] }
  else w

/-- The statement data as it is read after `ODBCStatement::Free` has released a
statement whose handle was not null: the freed memory. -/
def freedBy {σ : Type} (ext : External σ) (w : World σ) : QueryData :=
  { ext.Freed
      (ext.SQLFreeHandle (ext.SQLFreeStmt w.drv w.data.hSTMT SQL_CLOSE).1 w.data.hSTMT).1
      { w.data with
        sqlReturnCode :=
          (ext.SQLFreeHandle (ext.SQLFreeStmt w.drv w.data.hSTMT SQL_CLOSE).1 w.data.hSTMT).2
        hSTMT := 0 } with
    deleted := true }

/-! ## The workers -/

/-- A queued `Napi::AsyncWorker` of one of the four classes, with the callback it was
constructed with (and, for the close worker, its close option). -/
inductive AsyncWorker
  | prepare (callback : JsValue)
  | bind (callback : JsValue)
  | execute (callback : JsValue)
  | close (closeOption : Int) (callback : JsValue)
  deriving DecidableEq, Repr

/-- The method `PrepareAsyncWorker::Execute`.  The result is `none` when the driver
reported a negative parameter count with a succeeded status: `new Parameter*[n]` with
negative `n` does not return an array, and the source does not say what happens next. -/
def PrepareAsyncWorker.Execute {σ : Type} (ext : External σ) (w : World σ) :
    Option (World σ × Option String) :=
  let r1 := ext.SQLPrepare w.drv w.data.hSTMT w.data.sql
  let w1 : World σ :=
    { w with
      drv := r1.1
      data := { w.data with sqlReturnCode := r1.2 }
      calls := w.calls ++ [Call.SQLPrepare w.data.hSTMT w.data.sql r1.2] }
  if !SQL_SUCCEEDED w1.data.sqlReturnCode then
    some (setErrorFromDriver ext w1 msgPrepare)
  else
    let r2 := ext.SQLNumParams w1.drv w1.data.hSTMT
    let count : Int :=
      match r2.2.2 with
      | some v => toSQLSMALLINT v
      | none => w1.data.parameterCount
    let w2 : World σ :=
      { w1 with
        drv := r2.1
        data := { w1.data with sqlReturnCode := r2.2.1, parameterCount := count }
        calls := w1.calls ++ [Call.SQLNumParams w1.data.hSTMT r2.2.1] }
    if !SQL_SUCCEEDED w2.data.sqlReturnCode then
      some (setErrorFromDriver ext w2 msgPrepare)
    else if w2.data.parameterCount < 0 then
      none
    else
      let fresh := List.replicate w2.data.parameterCount.toNat Parameter.new
      let r3 := ext.DescribeParameters w2.drv w2.data.hSTMT fresh w2.data.parameterCount
      let w3 : World σ :=
        { w2 with
          drv := r3.1
          data := { w2.data with
                    sqlReturnCode := r3.2.1
                    parameters := some (overlay fresh r3.2.2) }
          calls := w2.calls ++
            [Call.DescribeParameters w2.data.hSTMT w2.data.parameterCount r3.2.1] }
      if !SQL_SUCCEEDED w3.data.sqlReturnCode then
        some (setErrorFromDriver ext w3 msgPrepare)
      else
        some (w3, none)

/-- The method `BindAsyncWorker::Execute`: the status is kept in a local variable. -/
def BindAsyncWorker.Execute {σ : Type} (ext : External σ) (w : World σ) :
    World σ × Option String :=
  let r := ext.BindParameters w.drv w.data.hSTMT w.data.parameters w.data.parameterCount
  let w1 : World σ :=
    { w with
      drv := r.1
      calls := w.calls ++ [Call.BindParameters w.data.hSTMT w.data.parameterCount r.2] }
  if !SQL_SUCCEEDED r.2 then
    setErrorFromDriver ext w1 msgBind
  else
    (w1, none)

/-- The method `ExecuteAsyncWorker::Execute`. -/
def ExecuteAsyncWorker.Execute {σ : Type} (ext : External σ) (w : World σ) :
    World σ × Option String :=
  let r := ext.SQLExecute w.drv w.data.hSTMT
  let w1 : World σ :=
    { w with
      drv := r.1
      data := { w.data with sqlReturnCode := r.2 }
      calls := w.calls ++ [Call.SQLExecute w.data.hSTMT r.2] }
  if SQL_SUCCEEDED w1.data.sqlReturnCode then
    let f := ext.RetrieveData w1.drv w1.data
    ({ w1 with
       drv := f.1
       data := { w1.data with sqlReturnCode := f.2.1, storedRows := f.2.2 }
       calls := w1.calls ++ [Call.RetrieveData w1.data.hSTMT f.2.1] }, none)
  else
    setErrorFromDriver ext w1 msgExecute

/-- The method `CloseAsyncWorker::Execute`.  `SQLFreeStmt` takes its option as a
SQLUSMALLINT, so the `int` is converted at the call. -/
def CloseAsyncWorker.Execute {σ : Type} (ext : External σ) (closeOption : Int)
    (w : World σ) : World σ × Option String :=
  let w1 : World σ :=
    if closeOption = ext.SQL_DESTROY then
      ODBCStatement.Free ext w
    else
      let r := ext.SQLFreeStmt w.drv w.data.hSTMT (toSQLUSMALLINT closeOption)
      { w with
        drv := r.1
        data := { w.data with sqlReturnCode := r.2 }
        calls := w.calls ++
          [Call.SQLFreeStmt w.data.hSTMT (toSQLUSMALLINT closeOption) r.2] }
  if SQL_SUCCEEDED w1.data.sqlReturnCode then
    (w1, none)
  else
    setErrorFromDriver ext w1 msgClose

/-- The method `Execute` of a queued worker. -/
def AsyncWorker.Execute {σ : Type} (ext : External σ) :
    AsyncWorker → World σ → Option (World σ × Option String)
  | .prepare _, w => PrepareAsyncWorker.Execute ext w
  | .bind _, w => some (BindAsyncWorker.Execute ext w)
  | .execute _, w => some (ExecuteAsyncWorker.Execute ext w)
  | .close closeOption _, w => some (CloseAsyncWorker.Execute ext closeOption w)

/-- The callback a worker was constructed with, `Callback()`. -/
def AsyncWorker.Callback : AsyncWorker → JsValue
  | .prepare cb => cb
  | .bind cb => cb
  | .execute cb => cb
  | .close _ cb => cb

/-- The arguments the method `OnOK` of each worker class passes to the callback. -/
def AsyncWorker.okArguments {σ : Type} (ext : External σ) :
    AsyncWorker → World σ → List CbArg
  | .prepare _, _ => [CbArg.null, CbArg.boolean true]
  | .bind _, _ => [CbArg.null]
  | .execute _, w => [CbArg.null, CbArg.rows (ext.ProcessDataForNapi w.data)]
  | .close _ _, _ => [CbArg.null]

/-- The method `OnOK`: one call of the callback. -/
def AsyncWorker.OnOK {σ : Type} (ext : External σ) (k : AsyncWorker) (w : World σ) :
    World σ :=
  { w with callbacks := w.callbacks ++ [⟨k.Callback, k.okArguments ext w⟩] }

/-- The default `Napi::AsyncWorker::OnError`: one call of the callback, with the error. -/
def AsyncWorker.OnError {σ : Type} (k : AsyncWorker) (message : String) (w : World σ) :
    World σ :=
  { w with callbacks := w.callbacks ++ [⟨k.Callback, [CbArg.error message]⟩] }

/-- A queued worker from `Execute` to its completion callback. -/
def AsyncWorker.run {σ : Type} (ext : External σ) (k : AsyncWorker) (w : World σ) :
    Option (World σ) :=
  match k.Execute ext w with
  | none => none
  | some (w1, none) => some (k.OnOK ext w1)
  | some (w1, some message) => some (k.OnError message w1)

/-! ## The JavaScript methods -/

/-- What a method has done when it returns: the world, the exception it left pending
and the worker it queued. -/
structure Dispatch (σ : Type) where
  world : World σ
  exception : Option String
  queued : Option AsyncWorker
  deriving DecidableEq, Repr

/-- The method `ODBCStatement::Prepare`. -/
def ODBCStatement.Prepare {σ : Type} (info : List JsValue) (w : World σ) : Dispatch σ :=
  if !(arg info 0).IsString || !(arg info 1).IsFunction then
    { world := w, exception := some msgPrepareArgs, queued := none }
  else
    let sql := (arg info 0).ToString
    let callback := arg info 1
    { world := { w with data := { w.data with sql := sql } }
      exception := none
      queued := some (AsyncWorker.prepare callback) }

/-- The method `ODBCStatement::Bind`. -/
def ODBCStatement.Bind {σ : Type} (ext : External σ) (info : List JsValue) (w : World σ) :
    Dispatch σ :=
  if !(arg info 0).IsArray || !(arg info 1).IsFunction then
    { world := w, exception := some msgBindArgs, queued := none }
  else
    let bindArray := (arg info 0).elements
    let callback := arg info 1
    if w.data.parameterCount != toSQLSMALLINT bindArray.length
        || w.data.parameters == none then
      { world := { w with callbacks := w.callbacks ++ [⟨callback, [CbArg.error msgBindCount]⟩] }
        exception := none
        queued := none }
    else
      let old := w.data.parameters.getD []
      let stored := overlay old (ext.StoreBindValues bindArray old)
      { world :=
          { w with
            data := { w.data with parameters := some stored }
            calls := w.calls ++ [Call.StoreBindValues bindArray.length] }
        exception := none
        queued := some (AsyncWorker.bind callback) }

/-- The method `ODBCStatement::Execute`.  When argument 0 is no function the TypeError
is raised and `callback` stays the empty `Napi::Function`; no `Napi::AsyncWorker` can be
constructed from it, so `new ExecuteAsyncWorker(this, callback)` ends the call: no worker
is queued. -/
def ODBCStatement.Execute {σ : Type} (info : List JsValue) (w : World σ) : Dispatch σ :=
  if (arg info 0).IsFunction then
    { world := w
      exception := none
      queued := some (AsyncWorker.execute (arg info 0)) }
  else
    { world := w, exception := some msgExecuteArgs, queued := none }

/-- The method `ODBCStatement::Close`.  After the TypeError is raised the next statement,
`info[0].ToNumber()`, is a call into the engine with an exception pending; it fails and
ends the call before a worker is constructed. -/
def ODBCStatement.Close {σ : Type} (info : List JsValue) (w : World σ) : Dispatch σ :=
  if info.length != 2 || !(arg info 0).IsNumber || !(arg info 1).IsFunction then
    { world := w, exception := some msgCloseArgs, queued := none }
  else
    let closeOption := (arg info 0).Int32Value
    let callback := arg info 1
    { world := w
      exception := none
      queued := some (AsyncWorker.close closeOption callback) }

/-- The four methods registered by `ODBCStatement::Init`. -/
inductive Method
  | Prepare
  | Bind
  | Execute
  | Close
  deriving DecidableEq, Repr

/-- The synchronous part of a method call. -/
def invoke {σ : Type} (ext : External σ) : Method → List JsValue → World σ → Dispatch σ
  | .Prepare, info, w => ODBCStatement.Prepare info w
  | .Bind, info, w => ODBCStatement.Bind ext info w
  | .Execute, info, w => ODBCStatement.Execute info w
  | .Close, info, w => ODBCStatement.Close info w

/-- The rest of a call: the queued worker, if there is one, runs to its callback. -/
def complete {σ : Type} (ext : External σ) (d : Dispatch σ) : Option (World σ) :=
  match d.queued with
  | none => some d.world
  | some k => k.run ext d.world

/-- A method call together with the completion of the worker it queued; the caller
waits for the callback before the next call on the same statement. -/
def call {σ : Type} (ext : External σ) (m : Method) (info : List JsValue) (w : World σ) :
    Option (World σ) :=
  complete ext (invoke ext m info w)

/-- A sequence of calls on one statement, each awaited before the next. -/
def runSeq {σ : Type} (ext : External σ) : List (Method × List JsValue) → World σ →
    Option (World σ)
  | [], w => some w
  | (m, info) :: rest, w =>
    match call ext m info w with
    | none => none
    | some w1 => runSeq ext rest w1

/-! ## Reading the log -/

/-- The handle and the status of a logged call that returns a status to
odbc_statement.cpp or leaves one in the statement data. -/
def Call.status : Call → Option (Nat × Int)
  | .SQLPrepare h _ rc => some (h, rc)
  | .SQLNumParams h rc => some (h, rc)
  | .DescribeParameters h _ rc => some (h, rc)
  | .BindParameters h _ rc => some (h, rc)
  | .SQLExecute h rc => some (h, rc)
  | .RetrieveData h rc => some (h, rc)
  | .SQLFreeStmt h _ rc => some (h, rc)
  | .SQLFreeHandle h rc => some (h, rc)
  | _ => none

/-- Every call in the list that returned a status was made on handle `h`, and each
one whose status is not a succeeded status is followed at once by `GetSQLError` on `h`. -/
def diagnosed (h : Nat) : List Call → Bool
  | [] => true
  | c :: rest =>
    (match c.status with
      | some (hc, rc) =>
        hc == h && (SQL_SUCCEEDED rc || rest.head? == some (Call.GetSQLError h))
      | none => true) && diagnosed h rest

/-- The argument shape each method asks for: Prepare a string and a function, Bind an
array and a function, Execute a function, Close exactly two arguments, a number and a
function. -/
def wellFormed : Method → List JsValue → Bool
  | .Prepare, info => (arg info 0).IsString && (arg info 1).IsFunction
  | .Bind, info => (arg info 0).IsArray && (arg info 1).IsFunction
  | .Execute, info => (arg info 0).IsFunction
  | .Close, info => info.length == 2 && (arg info 0).IsNumber && (arg info 1).IsFunction

/-- The text of the TypeError each method raises for a malformed call. -/
def shapeError : Method → String
  | .Prepare => msgPrepareArgs
  | .Bind => msgBindArgs
  | .Execute => msgExecuteArgs
  | .Close => msgCloseArgs

/-- The check of `ODBCStatement::Bind` fails: the count differs from the length cast to
SQLSMALLINT, or the descriptor array is null. -/
def bindMismatch (d : QueryData) (info : List JsValue) : Bool :=
  d.parameterCount != toSQLSMALLINT (arg info 0).elements.length || d.parameters == none

/-- The position of the callback among the arguments of each method. -/
def callbackPosition : Method → Nat
  | .Execute => 0
  | _ => 1

/-- An argument of a success callback: anything but an error. -/
def CbArg.isError : CbArg → Bool
  | .error _ => true
  | _ => false

/-- The shape of the arguments of one completion: an error alone, or null followed by a
payload that holds no error. -/
def completionShape : List CbArg → Bool
  | [CbArg.error _] => true
  | CbArg.null :: payload => payload.all fun a => !a.isError
  | _ => false

/-- A close worker constructed with the destroy option. -/
def AsyncWorker.isDestroy {σ : Type} (ext : External σ) : AsyncWorker → Bool
  | .close closeOption _ => closeOption == ext.SQL_DESTROY
  | _ => false

/-! ## The answers of the driver during a prepare

The three driver steps of a prepare worker started on statement data `w.data` with
SQL text `sql`, named so that statements can speak of their statuses. -/

/-- The answer of SQLPrepare. -/
def prepareStep {σ : Type} (ext : External σ) (w : World σ) (sql : String) : σ × Int :=
  ext.SQLPrepare w.drv w.data.hSTMT sql

/-- The answer of SQLNumParams, called after SQLPrepare. -/
def numParamsStep {σ : Type} (ext : External σ) (w : World σ) (sql : String) :
    σ × Int × Option Int :=
  ext.SQLNumParams (prepareStep ext w sql).1 w.data.hSTMT

/-- The parameter count in the statement data after SQLNumParams. -/
def countAfter {σ : Type} (ext : External σ) (w : World σ) (sql : String) : Int :=
  match (numParamsStep ext w sql).2.2 with
  | some v => toSQLSMALLINT v
  | none => w.data.parameterCount

/-- The answer of DescribeParameters, called after SQLNumParams on the fresh array. -/
def describeStep {σ : Type} (ext : External σ) (w : World σ) (sql : String) :
    σ × Int × List Parameter :=
  ext.DescribeParameters (numParamsStep ext w sql).1 w.data.hSTMT
    (List.replicate (countAfter ext w sql).toNat Parameter.new) (countAfter ext w sql)

/-- The allocation `new Parameter*[data->parameterCount]` of a prepare worker is reached
only with a count that is not negative. -/
def allocationDefined {σ : Type} (ext : External σ) (w : World σ) (sql : String) : Prop :=
  SQL_SUCCEEDED (prepareStep ext w sql).2 = true →
    SQL_SUCCEEDED (numParamsStep ext w sql).2.1 = true → 0 ≤ countAfter ext w sql

instance allocationDefined.decidable {σ : Type} (ext : External σ) (w : World σ)
    (sql : String) : Decidable (allocationDefined ext w sql) := by
  unfold allocationDefined
  infer_instance

/-! ## Concrete drivers and inputs -/

/-- The answers of a scripted environment.  `execute` lists the statuses of the
successive SQLExecute calls (0 once the list is used up); `freed` is what a read of the
freed statement data finds, by default the bytes the program left. -/
structure Script where
  prepare : Int := 0
  numParams : Int := 0
  count : Option Int := some 0
  describe : Int := 0
  bindParameters : Int := 0
  execute : List Int := []
  retrieve : Int := 0
  freeStmt : Int := 0
  freeHandle : Int := 0
  freed : QueryData → QueryData := fun d => d

/-- A scripted driver.  Its state counts the SQLExecute calls made so far; the
diagnostic text is the message it is given followed by the handle; SQL_DESTROY is 9999. -/
def scripted (c : Script) : External Nat :=
  { SQL_DESTROY := 9999
    SQLPrepare := fun d _ _ => (d, c.prepare)
    SQLNumParams := fun d _ => (d, c.numParams, c.count)
    DescribeParameters := fun d _ ps _ => (d, c.describe, ps)
    StoreBindValues := fun vs ps => (ps.zip vs).map fun q => { q.1 with value := q.2 }
    BindParameters := fun d _ _ _ => (d, c.bindParameters)
    SQLExecute := fun d _ => (d + 1, c.execute.getD d 0)
    RetrieveData := fun d _ => (d, c.retrieve, [["row"]])
    ProcessDataForNapi := fun q => q.storedRows
    SQLFreeStmt := fun d _ _ => (d, c.freeStmt)
    SQLFreeHandle := fun d _ => (d, c.freeHandle)
    GetSQLError := fun d h m => (d, m ++ " on handle " ++ toString h)
    Freed := fun _ d => c.freed d }

/-- Freed statement data in which the handle field reads 4242, the other fields as the
program left them. -/
def overwritten (d : QueryData) : QueryData := { d with hSTMT := 4242 }

/-- A statement as its constructor leaves it, with handle 7. -/
def created : World Nat :=
  { data := { hSTMT := 7, sql := "", parameterCount := 0, parameters := none,
              sqlReturnCode := 0, storedRows := [], deleted := false }
    drv := 0
    calls := []
    callbacks := [] }

/-- The statement `created` after a prepare in which SQLPrepare and SQLNumParams
succeeded, with one parameter, and DescribeParameters failed. -/
def describeFailed : World Nat :=
  { data := { hSTMT := 7, sql := "SELECT 1", parameterCount := 1,
              parameters := some [Parameter.new],
              sqlReturnCode := -1, storedRows := [], deleted := false }
    drv := 0
    calls := [Call.SQLPrepare 7 "SELECT 1" 0, Call.SQLNumParams 7 0,
              Call.DescribeParameters 7 1 (-1), Call.GetSQLError 7]
    callbacks := [⟨JsValue.function 1, [CbArg.error (msgPrepare ++ " on handle 7")]⟩] }

/-- The arguments of a close call with the destroy option of the scripted drivers. -/
def destroyArgs : List JsValue := [JsValue.number 9999, JsValue.function 1]

/-- The arguments of a well-formed prepare call. -/
def prepareArgs : List JsValue := [JsValue.string "SELECT 1", JsValue.function 1]

/-- The statement `created` after a successful prepare that found no parameter. -/
def preparedZero : World Nat :=
  { data := { hSTMT := 7, sql := "SELECT 1", parameterCount := 0, parameters := some [],
              sqlReturnCode := 0, storedRows := [], deleted := false }
    drv := 0
    calls := [Call.SQLPrepare 7 "SELECT 1" 0, Call.SQLNumParams 7 0,
              Call.DescribeParameters 7 0 0]
    callbacks := [⟨JsValue.function 1, [CbArg.null, CbArg.boolean true]⟩] }

/-- A bind array of 65536 numbers. -/
def longArray : JsValue := JsValue.array (List.replicate 65536 (Prim.number 1))

/-! ## Lemmas on the parts -/

/-- The array keeps the number of slots it was allocated with. -/
theorem overlay_length (old new : List Parameter) : (overlay old new).length = old.length := by
  simp [overlay]

/-- An array without slots stays without slots. -/
theorem overlay_nil (new : List Parameter) : overlay [] new = [] := rfl

/-- The cast to SQLSMALLINT keeps a value of the range 0 to 32767. -/
theorem toSQLSMALLINT_of_range (n : Int) (h0 : 0 ≤ n) (h1 : n < 32768) :
    toSQLSMALLINT n = n := by
  unfold toSQLSMALLINT
  omega

/-- The bind call whose check passes: the values are stored and the worker is queued. -/
theorem Bind_accepts {σ : Type} (ext : External σ) (w : World σ) (vals : List Prim)
    (cb : Nat) (ps : List Parameter) (hp : w.data.parameters = some ps)
    (hc : w.data.parameterCount = toSQLSMALLINT vals.length) :
    invoke ext Method.Bind [JsValue.array vals, JsValue.function cb] w =
      { world :=
          { w with
            data := { w.data with
                      parameters := some (overlay ps (ext.StoreBindValues vals ps)) }
            calls := w.calls ++ [Call.StoreBindValues vals.length] }
        exception := none
        queued := some (AsyncWorker.bind (JsValue.function cb)) } := by
  simp [invoke, ODBCStatement.Bind, arg, JsValue.IsArray, JsValue.IsFunction,
    JsValue.elements, hp, hc]

/-- The bind call whose check fails: one error to the callback, nothing else. -/
theorem Bind_rejects {σ : Type} (ext : External σ) (w : World σ) (vals : List Prim)
    (cb : Nat)
    (h : w.data.parameterCount ≠ toSQLSMALLINT vals.length ∨ w.data.parameters = none) :
    invoke ext Method.Bind [JsValue.array vals, JsValue.function cb] w =
      { world :=
          { w with
            callbacks := w.callbacks ++ [⟨JsValue.function cb, [CbArg.error msgBindCount]⟩] }
        exception := none
        queued := none } := by
  rcases h with h | h
  · simp [invoke, ODBCStatement.Bind, arg, JsValue.IsArray, JsValue.IsFunction,
      JsValue.elements, h]
  · simp [invoke, ODBCStatement.Bind, arg, JsValue.IsArray, JsValue.IsFunction,
      JsValue.elements, h]

/-- Below 65536 values the check of bind is exact: a length that differs from a
parameter count that is not negative is answered with the error. -/
theorem Bind_rejects_mismatch_below_65536 {σ : Type} (ext : External σ) (w : World σ)
    (vals : List Prim) (cb : Nat) (hcount : 0 ≤ w.data.parameterCount)
    (hlen : vals.length < 65536) (hne : (vals.length : Int) ≠ w.data.parameterCount) :
    invoke ext Method.Bind [JsValue.array vals, JsValue.function cb] w =
      { world :=
          { w with
            callbacks := w.callbacks ++ [⟨JsValue.function cb, [CbArg.error msgBindCount]⟩] }
        exception := none
        queued := none } := by
  apply Bind_rejects
  left
  unfold toSQLSMALLINT
  omega

/-- The prepare worker when SQLPrepare fails. -/
theorem prepare_exec_fail1 {σ : Type} (ext : External σ) (w : World σ)
    (h1 : SQL_SUCCEEDED (prepareStep ext w w.data.sql).2 = false) :
    PrepareAsyncWorker.Execute ext w = some
      ({ w with
         drv := (ext.GetSQLError (prepareStep ext w w.data.sql).1 w.data.hSTMT msgPrepare).1
         data := { w.data with sqlReturnCode := (prepareStep ext w w.data.sql).2 }
         calls := w.calls ++
           [Call.SQLPrepare w.data.hSTMT w.data.sql (prepareStep ext w w.data.sql).2,
            Call.GetSQLError w.data.hSTMT] },
       some (ext.GetSQLError (prepareStep ext w w.data.sql).1 w.data.hSTMT msgPrepare).2) := by
  unfold prepareStep at h1 ⊢
  simp [PrepareAsyncWorker.Execute, setErrorFromDriver, h1]

/-- The prepare worker when SQLNumParams fails. -/
theorem prepare_exec_fail2 {σ : Type} (ext : External σ) (w : World σ)
    (h1 : SQL_SUCCEEDED (prepareStep ext w w.data.sql).2 = true)
    (h2 : SQL_SUCCEEDED (numParamsStep ext w w.data.sql).2.1 = false) :
    PrepareAsyncWorker.Execute ext w = some
      ({ w with
         drv := (ext.GetSQLError (numParamsStep ext w w.data.sql).1 w.data.hSTMT msgPrepare).1
         data := { w.data with
                   sqlReturnCode := (numParamsStep ext w w.data.sql).2.1
                   parameterCount := countAfter ext w w.data.sql }
         calls := w.calls ++
           [Call.SQLPrepare w.data.hSTMT w.data.sql (prepareStep ext w w.data.sql).2,
            Call.SQLNumParams w.data.hSTMT (numParamsStep ext w w.data.sql).2.1,
            Call.GetSQLError w.data.hSTMT] },
       some (ext.GetSQLError (numParamsStep ext w w.data.sql).1 w.data.hSTMT msgPrepare).2) := by
  unfold countAfter
  unfold numParamsStep at h2 ⊢
  unfold prepareStep at h1 h2 ⊢
  simp [PrepareAsyncWorker.Execute, setErrorFromDriver, h1, h2]

/-- The prepare worker when the count it has to allocate for is negative. -/
theorem prepare_exec_abort {σ : Type} (ext : External σ) (w : World σ)
    (h1 : SQL_SUCCEEDED (prepareStep ext w w.data.sql).2 = true)
    (h2 : SQL_SUCCEEDED (numParamsStep ext w w.data.sql).2.1 = true)
    (hn : countAfter ext w w.data.sql < 0) :
    PrepareAsyncWorker.Execute ext w = none := by
  unfold countAfter at hn
  unfold numParamsStep at h2 hn
  unfold prepareStep at h1 h2 hn
  simp [PrepareAsyncWorker.Execute, setErrorFromDriver, h1, h2, hn]

/-- The prepare worker when DescribeParameters fails. -/
theorem prepare_exec_fail3 {σ : Type} (ext : External σ) (w : World σ)
    (h1 : SQL_SUCCEEDED (prepareStep ext w w.data.sql).2 = true)
    (h2 : SQL_SUCCEEDED (numParamsStep ext w w.data.sql).2.1 = true)
    (hn : 0 ≤ countAfter ext w w.data.sql)
    (h3 : SQL_SUCCEEDED (describeStep ext w w.data.sql).2.1 = false) :
    PrepareAsyncWorker.Execute ext w = some
      ({ w with
         drv := (ext.GetSQLError (describeStep ext w w.data.sql).1 w.data.hSTMT msgPrepare).1
         data := { w.data with
                   sqlReturnCode := (describeStep ext w w.data.sql).2.1
                   parameterCount := countAfter ext w w.data.sql
                   parameters := some (overlay
                     (List.replicate (countAfter ext w w.data.sql).toNat Parameter.new)
                     (describeStep ext w w.data.sql).2.2) }
         calls := w.calls ++
           [Call.SQLPrepare w.data.hSTMT w.data.sql (prepareStep ext w w.data.sql).2,
            Call.SQLNumParams w.data.hSTMT (numParamsStep ext w w.data.sql).2.1,
            Call.DescribeParameters w.data.hSTMT (countAfter ext w w.data.sql)
              (describeStep ext w w.data.sql).2.1,
            Call.GetSQLError w.data.hSTMT] },
       some (ext.GetSQLError (describeStep ext w w.data.sql).1 w.data.hSTMT msgPrepare).2) := by
  unfold describeStep at h3 ⊢
  unfold countAfter at hn h3 ⊢
  unfold numParamsStep at h2 hn h3 ⊢
  unfold prepareStep at h1 h2 hn h3 ⊢
  simp [PrepareAsyncWorker.Execute, setErrorFromDriver, h1, h2, h3, not_lt.mpr hn]

/-- The prepare worker when the three steps succeed. -/
theorem prepare_exec_ok {σ : Type} (ext : External σ) (w : World σ)
    (h1 : SQL_SUCCEEDED (prepareStep ext w w.data.sql).2 = true)
    (h2 : SQL_SUCCEEDED (numParamsStep ext w w.data.sql).2.1 = true)
    (hn : 0 ≤ countAfter ext w w.data.sql)
    (h3 : SQL_SUCCEEDED (describeStep ext w w.data.sql).2.1 = true) :
    PrepareAsyncWorker.Execute ext w = some
      ({ w with
         drv := (describeStep ext w w.data.sql).1
         data := { w.data with
                   sqlReturnCode := (describeStep ext w w.data.sql).2.1
                   parameterCount := countAfter ext w w.data.sql
                   parameters := some (overlay
                     (List.replicate (countAfter ext w w.data.sql).toNat Parameter.new)
                     (describeStep ext w w.data.sql).2.2) }
         calls := w.calls ++
           [Call.SQLPrepare w.data.hSTMT w.data.sql (prepareStep ext w w.data.sql).2,
            Call.SQLNumParams w.data.hSTMT (numParamsStep ext w w.data.sql).2.1,
            Call.DescribeParameters w.data.hSTMT (countAfter ext w w.data.sql)
              (describeStep ext w w.data.sql).2.1] },
       none) := by
  unfold describeStep at h3 ⊢
  unfold countAfter at hn h3 ⊢
  unfold numParamsStep at h2 hn h3 ⊢
  unfold prepareStep at h1 h2 hn h3 ⊢
  simp [PrepareAsyncWorker.Execute, setErrorFromDriver, h1, h2, h3, not_lt.mpr hn]

/-- The prepare worker returns whenever its allocation is defined. -/
theorem prepare_exec_isSome {σ : Type} (ext : External σ) (w : World σ)
    (ha : allocationDefined ext w w.data.sql) :
    ∃ r, PrepareAsyncWorker.Execute ext w = some r := by
  by_cases h1 : SQL_SUCCEEDED (prepareStep ext w w.data.sql).2 = true
  · by_cases h2 : SQL_SUCCEEDED (numParamsStep ext w w.data.sql).2.1 = true
    · have hn := ha h1 h2
      by_cases h3 : SQL_SUCCEEDED (describeStep ext w w.data.sql).2.1 = true
      · exact ⟨_, prepare_exec_ok ext w h1 h2 hn h3⟩
      · exact ⟨_, prepare_exec_fail3 ext w h1 h2 hn (by simpa using h3)⟩
    · exact ⟨_, prepare_exec_fail2 ext w h1 (by simpa using h2)⟩
  · exact ⟨_, prepare_exec_fail1 ext w (by simpa using h1)⟩

/-- A worker run is its `Execute` followed by one call of the callback. -/
theorem run_eq {σ : Type} (ext : External σ) (k : AsyncWorker) (w : World σ) :
    k.run ext w = (k.Execute ext w).map fun r =>
      { r.1 with callbacks := r.1.callbacks ++
          [⟨k.Callback, match r.2 with
            | none => k.okArguments ext r.1
            | some message => [CbArg.error message]⟩] } := by
  unfold AsyncWorker.run
  cases h : k.Execute ext w with
  | none => rfl
  | some r =>
    obtain ⟨w1, e⟩ := r
    cases e <;> rfl

/-- The arguments of every `OnOK` are null and a payload without error. -/
theorem okArguments_shape {σ : Type} (ext : External σ) (k : AsyncWorker) (w : World σ) :
    completionShape (k.okArguments ext w) = true := by
  cases k <;> simp [AsyncWorker.okArguments, completionShape, CbArg.isError]

/-- A well-formed prepare call is the run of its worker on the new SQL text. -/
theorem call_Prepare_eq {σ : Type} (ext : External σ) (w : World σ) (sql : String)
    (cb : Nat) :
    call ext Method.Prepare [JsValue.string sql, JsValue.function cb] w =
      (AsyncWorker.prepare (JsValue.function cb)).run ext
        { w with data := { w.data with sql := sql } } := by
  simp [call, invoke, ODBCStatement.Prepare, arg, JsValue.IsString, JsValue.IsFunction,
    JsValue.ToString, complete]

/-- The execute call when SQLExecute fails. -/
theorem call_Execute_fail {σ : Type} (ext : External σ) (w : World σ) (cb : Nat)
    (hf : SQL_SUCCEEDED (ext.SQLExecute w.drv w.data.hSTMT).2 = false) :
    call ext Method.Execute [JsValue.function cb] w = some
      { w with
        drv := (ext.GetSQLError (ext.SQLExecute w.drv w.data.hSTMT).1 w.data.hSTMT
                 msgExecute).1
        data := { w.data with sqlReturnCode := (ext.SQLExecute w.drv w.data.hSTMT).2 }
        calls := w.calls ++
          [Call.SQLExecute w.data.hSTMT (ext.SQLExecute w.drv w.data.hSTMT).2,
           Call.GetSQLError w.data.hSTMT]
        callbacks := w.callbacks ++
          [⟨JsValue.function cb,
            [CbArg.error (ext.GetSQLError (ext.SQLExecute w.drv w.data.hSTMT).1
              w.data.hSTMT msgExecute).2]⟩] } := by
  simp [call, invoke, ODBCStatement.Execute, complete, run_eq, AsyncWorker.Execute,
    ExecuteAsyncWorker.Execute, arg, JsValue.IsFunction, setErrorFromDriver, hf,
    AsyncWorker.Callback]

/-- The execute call when SQLExecute succeeds. -/
theorem call_Execute_ok {σ : Type} (ext : External σ) (w : World σ) (cb : Nat)
    (hs : SQL_SUCCEEDED (ext.SQLExecute w.drv w.data.hSTMT).2 = true) :
    call ext Method.Execute [JsValue.function cb] w = some
      { w with
        drv := (ext.RetrieveData (ext.SQLExecute w.drv w.data.hSTMT).1
                 { w.data with sqlReturnCode := (ext.SQLExecute w.drv w.data.hSTMT).2 }).1
        data := { w.data with
                  sqlReturnCode := (ext.RetrieveData (ext.SQLExecute w.drv w.data.hSTMT).1
                    { w.data with
                      sqlReturnCode := (ext.SQLExecute w.drv w.data.hSTMT).2 }).2.1
                  storedRows := (ext.RetrieveData (ext.SQLExecute w.drv w.data.hSTMT).1
                    { w.data with
                      sqlReturnCode := (ext.SQLExecute w.drv w.data.hSTMT).2 }).2.2 }
        calls := w.calls ++
          [Call.SQLExecute w.data.hSTMT (ext.SQLExecute w.drv w.data.hSTMT).2,
           Call.RetrieveData w.data.hSTMT
             (ext.RetrieveData (ext.SQLExecute w.drv w.data.hSTMT).1
               { w.data with
                 sqlReturnCode := (ext.SQLExecute w.drv w.data.hSTMT).2 }).2.1]
        callbacks := w.callbacks ++
          [⟨JsValue.function cb,
            [CbArg.null, CbArg.rows (ext.ProcessDataForNapi
              { w.data with
                sqlReturnCode := (ext.RetrieveData (ext.SQLExecute w.drv w.data.hSTMT).1
                  { w.data with
                    sqlReturnCode := (ext.SQLExecute w.drv w.data.hSTMT).2 }).2.1
                storedRows := (ext.RetrieveData (ext.SQLExecute w.drv w.data.hSTMT).1
                  { w.data with
                    sqlReturnCode := (ext.SQLExecute w.drv w.data.hSTMT).2 }).2.2 })]⟩] } := by
  simp [call, invoke, ODBCStatement.Execute, complete, run_eq, AsyncWorker.Execute,
    ExecuteAsyncWorker.Execute, arg, JsValue.IsFunction, hs,
    AsyncWorker.Callback, AsyncWorker.okArguments]

/-- A call whose arguments do not have the shape the method asks for: the TypeError is
left pending, no worker is queued and nothing is changed. -/
theorem invoke_malformed {σ : Type} (ext : External σ) (m : Method) (info : List JsValue)
    (w : World σ) (h : wellFormed m info = false) :
    invoke ext m info w = { world := w, exception := some (shapeError m), queued := none } := by
  cases m with
  | Prepare =>
    simp only [wellFormed, Bool.and_eq_false_iff] at h
    rcases h with h | h <;> simp [invoke, ODBCStatement.Prepare, shapeError, h]
  | Bind =>
    simp only [wellFormed, Bool.and_eq_false_iff] at h
    rcases h with h | h <;> simp [invoke, ODBCStatement.Bind, shapeError, h]
  | Execute =>
    simp only [wellFormed] at h
    simp [invoke, ODBCStatement.Execute, shapeError, h]
  | Close =>
    simp only [wellFormed, Bool.and_eq_false_iff] at h
    rcases h with (h | h) | h <;> simp [invoke, ODBCStatement.Close, shapeError, h]
    · intro hl
      simp [hl] at h

/-- What the `Execute` of a worker does: it calls no callback and appends calls to the
log; unless it is a close with the destroy option it keeps the handle reference, and the
calls it appends are diagnosed, or they are a successful SQLExecute and the retrieval. -/
theorem Execute_frame {σ : Type} (ext : External σ) (k : AsyncWorker) (w w2 : World σ)
    (e : Option String) (h : k.Execute ext w = some (w2, e)) :
    w2.callbacks = w.callbacks ∧
    ∃ new, w2.calls = w.calls ++ new ∧
      (k.isDestroy ext = false →
        w2.data.hSTMT = w.data.hSTMT ∧
        (diagnosed w.data.hSTMT new = true ∨
          ∃ cb rc rc2, k = AsyncWorker.execute cb ∧ SQL_SUCCEEDED rc = true ∧
            new = [Call.SQLExecute w.data.hSTMT rc, Call.RetrieveData w.data.hSTMT rc2])) := by
  cases k with
  | prepare cb =>
    simp only [AsyncWorker.Execute] at h
    by_cases h1 : SQL_SUCCEEDED (prepareStep ext w w.data.sql).2 = true
    · by_cases h2 : SQL_SUCCEEDED (numParamsStep ext w w.data.sql).2.1 = true
      · by_cases hn : 0 ≤ countAfter ext w w.data.sql
        · by_cases h3 : SQL_SUCCEEDED (describeStep ext w w.data.sql).2.1 = true
          · rw [prepare_exec_ok ext w h1 h2 hn h3] at h
            simp only [Option.some.injEq, Prod.mk.injEq] at h
            obtain ⟨rfl, rfl⟩ := h
            refine ⟨rfl, _, rfl, fun _ => ⟨rfl, Or.inl ?_⟩⟩
            simp [diagnosed, Call.status, h1, h2, h3]
          · rw [prepare_exec_fail3 ext w h1 h2 hn (by simpa using h3)] at h
            simp only [Option.some.injEq, Prod.mk.injEq] at h
            obtain ⟨rfl, rfl⟩ := h
            refine ⟨rfl, _, rfl, fun _ => ⟨rfl, Or.inl ?_⟩⟩
            simp [diagnosed, Call.status, h1, h2, h3]
        · rw [prepare_exec_abort ext w h1 h2 (by omega)] at h
          simp at h
      · rw [prepare_exec_fail2 ext w h1 (by simpa using h2)] at h
        simp only [Option.some.injEq, Prod.mk.injEq] at h
        obtain ⟨rfl, rfl⟩ := h
        refine ⟨rfl, _, rfl, fun _ => ⟨rfl, Or.inl ?_⟩⟩
        simp [diagnosed, Call.status, h1, h2]
    · rw [prepare_exec_fail1 ext w (by simpa using h1)] at h
      simp only [Option.some.injEq, Prod.mk.injEq] at h
      obtain ⟨rfl, rfl⟩ := h
      refine ⟨rfl, _, rfl, fun _ => ⟨rfl, Or.inl ?_⟩⟩
      simp [diagnosed, Call.status, h1]
  | bind cb =>
    simp only [AsyncWorker.Execute, BindAsyncWorker.Execute, setErrorFromDriver,
      Option.some.injEq] at h
    split at h
    · rename_i hs
      simp only [Prod.mk.injEq] at h
      obtain ⟨rfl, rfl⟩ := h
      refine ⟨rfl, _, List.append_assoc _ _ _, fun _ => ⟨rfl, Or.inl ?_⟩⟩
      simp [diagnosed, Call.status]
    · rename_i hs
      simp only [Prod.mk.injEq] at h
      obtain ⟨rfl, rfl⟩ := h
      refine ⟨rfl, [_], rfl, fun _ => ⟨rfl, Or.inl ?_⟩⟩
      simpa [diagnosed, Call.status] using hs
  | execute cb =>
    simp only [AsyncWorker.Execute, ExecuteAsyncWorker.Execute, setErrorFromDriver,
      Option.some.injEq] at h
    split at h
    · rename_i hs
      simp only [Prod.mk.injEq] at h
      obtain ⟨rfl, rfl⟩ := h
      exact ⟨rfl, _, List.append_assoc _ _ _, fun _ => ⟨rfl, Or.inr ⟨cb, _, _, rfl, hs, rfl⟩⟩⟩
    · rename_i hs
      simp only [Prod.mk.injEq] at h
      obtain ⟨rfl, rfl⟩ := h
      refine ⟨rfl, _, List.append_assoc _ _ _, fun _ => ⟨rfl, Or.inl ?_⟩⟩
      simp [diagnosed, Call.status]
  | close opt cb =>
    simp only [AsyncWorker.Execute, CloseAsyncWorker.Execute, setErrorFromDriver,
      Option.some.injEq] at h
    by_cases hd : opt = ext.SQL_DESTROY
    · simp only [hd, if_true] at h
      by_cases h0 : w.data.hSTMT = 0
      · simp only [ODBCStatement.Free, h0, ne_eq, not_true_eq_false, if_false] at h
        split at h
        · simp only [Prod.mk.injEq] at h
          obtain ⟨rfl, rfl⟩ := h
          exact ⟨rfl, [], by simp, by simp [AsyncWorker.isDestroy, hd]⟩
        · simp only [Prod.mk.injEq] at h
          obtain ⟨rfl, rfl⟩ := h
          exact ⟨rfl, _, rfl, by simp [AsyncWorker.isDestroy, hd]⟩
      · simp only [ODBCStatement.Free, h0, ne_eq, not_false_eq_true, if_true] at h
        split at h
        · simp only [Prod.mk.injEq] at h
          obtain ⟨rfl, rfl⟩ := h
          exact ⟨rfl, _, rfl, by simp [AsyncWorker.isDestroy, hd]⟩
        · simp only [Prod.mk.injEq] at h
          obtain ⟨rfl, rfl⟩ := h
          exact ⟨rfl, _, List.append_assoc _ _ _, by simp [AsyncWorker.isDestroy, hd]⟩
    · simp only [hd, if_false] at h
      split at h
      · rename_i hs
        simp only [Prod.mk.injEq] at h
        obtain ⟨rfl, rfl⟩ := h
        refine ⟨rfl, _, rfl, fun _ => ⟨rfl, Or.inl ?_⟩⟩
        simpa [diagnosed, Call.status] using hs
      · rename_i hs
        simp only [Prod.mk.injEq] at h
        obtain ⟨rfl, rfl⟩ := h
        refine ⟨rfl, _, List.append_assoc _ _ _, fun _ => ⟨rfl, Or.inl ?_⟩⟩
        simp [diagnosed, Call.status]

/-- Every worker returns from `Execute`, a prepare worker provided its allocation is
defined. -/
theorem Execute_isSome {σ : Type} (ext : External σ) (k : AsyncWorker) (w : World σ)
    (ha : ∀ cb, k = AsyncWorker.prepare cb → allocationDefined ext w w.data.sql) :
    ∃ r, k.Execute ext w = some r := by
  cases k with
  | prepare cb => exact prepare_exec_isSome ext w (ha cb rfl)
  | bind cb => exact ⟨_, rfl⟩
  | execute cb => exact ⟨_, rfl⟩
  | close opt cb => exact ⟨_, rfl⟩

/-- A call whose arguments have the shape the method asks for: no exception, the handle
reference is kept, and either it is a bind whose check fails, answered on the spot, or a
worker is queued with the callback given by the caller, no callback has been called and
the calls made so far return no status. -/
theorem invoke_wellFormed {σ : Type} (ext : External σ) (m : Method) (info : List JsValue)
    (w : World σ) (h : wellFormed m info = true) :
    (arg info (callbackPosition m)).IsFunction = true ∧
    (invoke ext m info w).exception = none ∧
    (invoke ext m info w).world.data.hSTMT = w.data.hSTMT ∧
    ((m = Method.Bind ∧ bindMismatch w.data info = true ∧
        invoke ext m info w =
          { world := { w with callbacks := w.callbacks ++
                        [⟨arg info 1, [CbArg.error msgBindCount]⟩] }
            exception := none
            queued := none }) ∨
      ∃ k, (invoke ext m info w).queued = some k ∧
        k.Callback = arg info (callbackPosition m) ∧
        (invoke ext m info w).world.callbacks = w.callbacks ∧
        (m = Method.Bind → bindMismatch w.data info = false) ∧
        (∃ pre, (invoke ext m info w).world.calls = w.calls ++ pre ∧
          (∀ c ∈ pre, c.status = none) ∧
          ((∃ cb, k = AsyncWorker.execute cb) → pre = [])) ∧
        (k.isDestroy ext = true ↔
          (m = Method.Close ∧ (arg info 0).Int32Value = ext.SQL_DESTROY)) ∧
        (∀ cb, k = AsyncWorker.prepare cb →
          m = Method.Prepare ∧
          (invoke ext m info w).world =
            { w with data := { w.data with sql := (arg info 0).ToString } })) := by
  cases m with
  | Prepare =>
    simp only [wellFormed, Bool.and_eq_true] at h
    refine ⟨h.2, ?_, ?_, Or.inr ⟨AsyncWorker.prepare (arg info 1), ?_, rfl, ?_, ?_, ⟨[], ?_, ?_, ?_⟩,
      ?_, ?_⟩⟩ <;>
      simp [invoke, ODBCStatement.Prepare, h.1, h.2, AsyncWorker.isDestroy]
  | Bind =>
    simp only [wellFormed, Bool.and_eq_true] at h
    by_cases hm : bindMismatch w.data info = true
    · have hm2 := hm
      unfold bindMismatch at hm2
      refine ⟨h.2, ?_, ?_, Or.inl ⟨rfl, hm, ?_⟩⟩ <;>
        simp [invoke, ODBCStatement.Bind, h.1, h.2, hm2]
    · have hm2 := hm
      unfold bindMismatch at hm2
      refine ⟨h.2, ?_, ?_, Or.inr ⟨AsyncWorker.bind (arg info 1), ?_, rfl, ?_, ?_,
        ⟨[Call.StoreBindValues (arg info 0).elements.length], ?_, ?_, ?_⟩, ?_, ?_⟩⟩ <;>
        simp [invoke, ODBCStatement.Bind, h.1, h.2, hm2, AsyncWorker.isDestroy, Call.status]
      simpa using hm
  | Execute =>
    simp only [wellFormed] at h
    refine ⟨h, ?_, ?_, Or.inr ⟨AsyncWorker.execute (arg info 0), ?_, rfl, ?_, ?_, ⟨[], ?_, ?_, ?_⟩,
      ?_, ?_⟩⟩ <;>
      simp [invoke, ODBCStatement.Execute, h, AsyncWorker.isDestroy]
  | Close =>
    simp only [wellFormed, Bool.and_eq_true, beq_iff_eq] at h
    obtain ⟨⟨hl, hn⟩, hf⟩ := h
    refine ⟨hf, ?_, ?_, Or.inr ⟨AsyncWorker.close (arg info 0).Int32Value (arg info 1), ?_, rfl,
      ?_, ?_, ⟨[], ?_, ?_, ?_⟩, ?_, ?_⟩⟩ <;>
      simp [invoke, ODBCStatement.Close, hl, hn, hf, AsyncWorker.isDestroy]

/-- Calls that return no status do not matter to `diagnosed`. -/
theorem diagnosed_append_of_silent (h : Nat) (pre new : List Call)
    (hpre : ∀ c ∈ pre, c.status = none) :
    diagnosed h (pre ++ new) = diagnosed h new := by
  induction pre with
  | nil => rfl
  | cons c rest ih =>
    have hc := hpre c (by simp)
    have := ih (fun c hc => hpre c (by simp [hc]))
    simp [diagnosed, hc, this]

/-- A call that queued a worker whose `Execute` returned: the world of the worker, and
one more callback call. -/
theorem call_of_queued {σ : Type} (ext : External σ) (m : Method) (info : List JsValue)
    (w w2 : World σ) (k : AsyncWorker) (e : Option String)
    (hq : (invoke ext m info w).queued = some k)
    (hr : k.Execute ext (invoke ext m info w).world = some (w2, e)) :
    ∃ w1 args, call ext m info w = some w1 ∧ w1.data = w2.data ∧ w1.calls = w2.calls ∧
      w1.callbacks = w2.callbacks ++ [⟨k.Callback, args⟩] ∧
      (e = none → args = k.okArguments ext w2) ∧
      (∀ message, e = some message → args = [CbArg.error message]) := by
  cases e with
  | none =>
    refine ⟨{ w2 with callbacks := w2.callbacks ++ [⟨k.Callback, k.okArguments ext w2⟩] },
      k.okArguments ext w2, ?_, rfl, rfl, rfl, fun _ => rfl, ?_⟩
    · unfold call complete
      rw [hq]
      simp only [run_eq, hr, Option.map_some']
    · intro _ h
      cases h
  | some message =>
    refine ⟨{ w2 with callbacks := w2.callbacks ++ [⟨k.Callback, [CbArg.error message]⟩] },
      [CbArg.error message], ?_, rfl, rfl, rfl, ?_, ?_⟩
    · unfold call complete
      rw [hq]
      simp only [run_eq, hr, Option.map_some']
    · intro h
      cases h
    · intro _ h
      cases h
      rfl

/-- The close call with another option than destroy, when SQLFreeStmt succeeds. -/
theorem call_Close_soft_ok {σ : Type} (ext : External σ) (w : World σ) (n : Int) (cb : Nat)
    (hsoft : toInt32 n ≠ ext.SQL_DESTROY)
    (hs : SQL_SUCCEEDED
      (ext.SQLFreeStmt w.drv w.data.hSTMT (toSQLUSMALLINT (toInt32 n))).2 = true) :
    call ext Method.Close [JsValue.number n, JsValue.function cb] w = some
      { w with
        drv := (ext.SQLFreeStmt w.drv w.data.hSTMT (toSQLUSMALLINT (toInt32 n))).1
        data := { w.data with
                  sqlReturnCode :=
                    (ext.SQLFreeStmt w.drv w.data.hSTMT (toSQLUSMALLINT (toInt32 n))).2 }
        calls := w.calls ++
          [Call.SQLFreeStmt w.data.hSTMT (toSQLUSMALLINT (toInt32 n))
            (ext.SQLFreeStmt w.drv w.data.hSTMT (toSQLUSMALLINT (toInt32 n))).2]
        callbacks := w.callbacks ++ [⟨JsValue.function cb, [CbArg.null]⟩] } := by
  simp [call, invoke, ODBCStatement.Close, complete, run_eq, AsyncWorker.Execute,
    CloseAsyncWorker.Execute, arg, JsValue.Int32Value, JsValue.IsNumber, JsValue.IsFunction,
    hsoft, hs, AsyncWorker.Callback, AsyncWorker.okArguments]

/-- The close call with another option than destroy, when SQLFreeStmt fails. -/
theorem call_Close_soft_fail {σ : Type} (ext : External σ) (w : World σ) (n : Int)
    (cb : Nat) (hsoft : toInt32 n ≠ ext.SQL_DESTROY)
    (hs : SQL_SUCCEEDED
      (ext.SQLFreeStmt w.drv w.data.hSTMT (toSQLUSMALLINT (toInt32 n))).2 = false) :
    call ext Method.Close [JsValue.number n, JsValue.function cb] w = some
      { w with
        drv := (ext.GetSQLError
                 (ext.SQLFreeStmt w.drv w.data.hSTMT (toSQLUSMALLINT (toInt32 n))).1
                 w.data.hSTMT msgClose).1
        data := { w.data with
                  sqlReturnCode :=
                    (ext.SQLFreeStmt w.drv w.data.hSTMT (toSQLUSMALLINT (toInt32 n))).2 }
        calls := w.calls ++
          [Call.SQLFreeStmt w.data.hSTMT (toSQLUSMALLINT (toInt32 n))
            (ext.SQLFreeStmt w.drv w.data.hSTMT (toSQLUSMALLINT (toInt32 n))).2,
           Call.GetSQLError w.data.hSTMT]
        callbacks := w.callbacks ++
          [⟨JsValue.function cb,
            [CbArg.error (ext.GetSQLError
              (ext.SQLFreeStmt w.drv w.data.hSTMT (toSQLUSMALLINT (toInt32 n))).1
              w.data.hSTMT msgClose).2]⟩] } := by
  simp [call, invoke, ODBCStatement.Close, complete, run_eq, AsyncWorker.Execute,
    CloseAsyncWorker.Execute, arg, JsValue.Int32Value, JsValue.IsNumber, JsValue.IsFunction,
    hsoft, hs, AsyncWorker.Callback, setErrorFromDriver]

/-- The close call with the destroy option on a handle reference that is not null:
SQLFreeStmt and SQLFreeHandle are called, the statement data is freed, and the status
tested afterwards, like the handle given to the diagnostic call, is read from the freed
data. -/
theorem call_Close_destroy_live {σ : Type} (ext : External σ) (w : World σ) (n : Int)
    (cb : Nat) (hd : toInt32 n = ext.SQL_DESTROY) (hlive : w.data.hSTMT ≠ 0) :
    ∃ w1 args, call ext Method.Close [JsValue.number n, JsValue.function cb] w = some w1 ∧
      w1.data = freedBy ext w ∧
      w1.calls = w.calls ++
        Call.SQLFreeStmt w.data.hSTMT SQL_CLOSE
            (ext.SQLFreeStmt w.drv w.data.hSTMT SQL_CLOSE).2 ::
          Call.SQLFreeHandle w.data.hSTMT
            (ext.SQLFreeHandle (ext.SQLFreeStmt w.drv w.data.hSTMT SQL_CLOSE).1
              w.data.hSTMT).2 ::
          (if SQL_SUCCEEDED (freedBy ext w).sqlReturnCode = true then []
           else [Call.GetSQLError (freedBy ext w).hSTMT]) ∧
      w1.callbacks = w.callbacks ++ [⟨JsValue.function cb, args⟩] ∧
      (args = [CbArg.null] ↔ SQL_SUCCEEDED (freedBy ext w).sqlReturnCode = true) := by
  by_cases hs : SQL_SUCCEEDED (freedBy ext w).sqlReturnCode = true
  · have hs2 := hs
    simp only [freedBy] at hs2
    refine ⟨{ w with
        drv := (ext.SQLFreeHandle (ext.SQLFreeStmt w.drv w.data.hSTMT SQL_CLOSE).1
                 w.data.hSTMT).1
        data := freedBy ext w
        calls := w.calls ++
          [Call.SQLFreeStmt w.data.hSTMT SQL_CLOSE
             (ext.SQLFreeStmt w.drv w.data.hSTMT SQL_CLOSE).2,
           Call.SQLFreeHandle w.data.hSTMT (ext.SQLFreeHandle
             (ext.SQLFreeStmt w.drv w.data.hSTMT SQL_CLOSE).1 w.data.hSTMT).2]
        callbacks := w.callbacks ++ [⟨JsValue.function cb, [CbArg.null]⟩] },
      [CbArg.null], ?_, rfl, ?_, rfl, ?_⟩
    · simp [call, invoke, ODBCStatement.Close, complete, run_eq, AsyncWorker.Execute,
        CloseAsyncWorker.Execute, ODBCStatement.Free, arg, JsValue.Int32Value,
        JsValue.IsNumber, JsValue.IsFunction, hd, hlive, hs2, AsyncWorker.Callback,
        AsyncWorker.okArguments, freedBy]
    · simp [hs]
    · simp [hs]
  · have hs2 := hs
    simp only [freedBy] at hs2
    refine ⟨{ w with
        drv := (ext.GetSQLError (ext.SQLFreeHandle
                 (ext.SQLFreeStmt w.drv w.data.hSTMT SQL_CLOSE).1 w.data.hSTMT).1
                 (freedBy ext w).hSTMT msgClose).1
        data := freedBy ext w
        calls := w.calls ++
          [Call.SQLFreeStmt w.data.hSTMT SQL_CLOSE
             (ext.SQLFreeStmt w.drv w.data.hSTMT SQL_CLOSE).2,
           Call.SQLFreeHandle w.data.hSTMT (ext.SQLFreeHandle
             (ext.SQLFreeStmt w.drv w.data.hSTMT SQL_CLOSE).1 w.data.hSTMT).2,
           Call.GetSQLError (freedBy ext w).hSTMT]
        callbacks := w.callbacks ++
          [⟨JsValue.function cb, [CbArg.error (ext.GetSQLError (ext.SQLFreeHandle
             (ext.SQLFreeStmt w.drv w.data.hSTMT SQL_CLOSE).1 w.data.hSTMT).1
             (freedBy ext w).hSTMT msgClose).2]⟩] },
      _, ?_, rfl, ?_, rfl, ?_⟩
    · simp [call, invoke, ODBCStatement.Close, complete, run_eq, AsyncWorker.Execute,
        CloseAsyncWorker.Execute, ODBCStatement.Free, arg, JsValue.Int32Value,
        JsValue.IsNumber, JsValue.IsFunction, hd, hlive, hs2, AsyncWorker.Callback,
        setErrorFromDriver, freedBy]
    · simp [hs]
    · simp [hs]

/-- The close call with the destroy option on a null handle reference: `Free` does
nothing and the status tested is the one found in the statement data. -/
theorem call_Close_destroy_null {σ : Type} (ext : External σ) (w : World σ) (n : Int)
    (cb : Nat) (hd : toInt32 n = ext.SQL_DESTROY) (hnull : w.data.hSTMT = 0) :
    ∃ w1 args, call ext Method.Close [JsValue.number n, JsValue.function cb] w = some w1 ∧
      w1.data = w.data ∧
      w1.calls = w.calls ++
        (if SQL_SUCCEEDED w.data.sqlReturnCode = true then []
         else [Call.GetSQLError 0]) ∧
      w1.callbacks = w.callbacks ++ [⟨JsValue.function cb, args⟩] ∧
      (args = [CbArg.null] ↔ SQL_SUCCEEDED w.data.sqlReturnCode = true) := by
  by_cases hs : SQL_SUCCEEDED w.data.sqlReturnCode = true
  · refine ⟨{ w with callbacks := w.callbacks ++ [⟨JsValue.function cb, [CbArg.null]⟩] },
      [CbArg.null], ?_, rfl, ?_, rfl, ?_⟩
    · simp [call, invoke, ODBCStatement.Close, complete, run_eq, AsyncWorker.Execute,
        CloseAsyncWorker.Execute, ODBCStatement.Free, arg, JsValue.Int32Value,
        JsValue.IsNumber, JsValue.IsFunction, hd, hnull, hs, AsyncWorker.Callback,
        AsyncWorker.okArguments]
    · simp [hs]
    · simp [hs]
  · refine ⟨{ w with
        drv := (ext.GetSQLError w.drv 0 msgClose).1
        calls := w.calls ++ [Call.GetSQLError 0]
        callbacks := w.callbacks ++
          [⟨JsValue.function cb, [CbArg.error (ext.GetSQLError w.drv 0 msgClose).2]⟩] },
      _, ?_, rfl, ?_, rfl, ?_⟩
    · simp [call, invoke, ODBCStatement.Close, complete, run_eq, AsyncWorker.Execute,
        CloseAsyncWorker.Execute, ODBCStatement.Free, arg, JsValue.Int32Value,
        JsValue.IsNumber, JsValue.IsFunction, hd, hnull, hs, AsyncWorker.Callback,
        setErrorFromDriver]
    · simp [hs]
    · simp [hs]

/-- Two runs of a double destroy.  With freed data whose handle field reads 4242,
SQLFreeHandle is called twice; with freed data that reads as the program left it and a
driver whose SQLFreeHandle fails, the second callback receives an error. -/
theorem double_destroy_runs :
    runSeq (scripted { freed := overwritten })
      [(Method.Close, destroyArgs), (Method.Close, [JsValue.number 9999, JsValue.function 2])]
      created
    = some
      { data := { hSTMT := 4242, sql := "", parameterCount := 0, parameters := none,
                  sqlReturnCode := 0, storedRows := [], deleted := true }
        drv := 0
        calls := [Call.SQLFreeStmt 7 0 0, Call.SQLFreeHandle 7 0,
                  Call.SQLFreeStmt 4242 0 0, Call.SQLFreeHandle 4242 0]
        callbacks := [⟨JsValue.function 1, [CbArg.null]⟩,
                      ⟨JsValue.function 2, [CbArg.null]⟩] }
    ∧ runSeq (scripted { freeHandle := -1 })
      [(Method.Close, destroyArgs), (Method.Close, [JsValue.number 9999, JsValue.function 2])]
      created
    = some
      { data := { hSTMT := 0, sql := "", parameterCount := 0, parameters := none,
                  sqlReturnCode := -1, storedRows := [], deleted := true }
        drv := 0
        calls := [Call.SQLFreeStmt 7 0 0, Call.SQLFreeHandle 7 (-1), Call.GetSQLError 0,
                  Call.GetSQLError 0]
        callbacks :=
          [⟨JsValue.function 1, [CbArg.error (msgClose ++ " on handle 0")]⟩,
           ⟨JsValue.function 2, [CbArg.error (msgClose ++ " on handle 0")]⟩] } := by
  constructor <;> decide

/-- Two runs of prepare, bind and execute after a destroy: every call reaches the
driver, with the handle 4242 read from the freed data or with the null handle the
program left there, and every callback receives a null error. -/
theorem after_destroy_runs :
    (runSeq (scripted { freed := overwritten })
      [(Method.Close, destroyArgs),
       (Method.Prepare, [JsValue.string "SELECT 2", JsValue.function 2]),
       (Method.Bind, [JsValue.array [], JsValue.function 3]),
       (Method.Execute, [JsValue.function 4])] preparedZero).map
        (fun w1 => (w1.calls.drop 5, w1.callbacks.drop 2))
    = some
      ([Call.SQLPrepare 4242 "SELECT 2" 0, Call.SQLNumParams 4242 0,
        Call.DescribeParameters 4242 0 0, Call.StoreBindValues 0,
        Call.BindParameters 4242 0 0, Call.SQLExecute 4242 0, Call.RetrieveData 4242 0],
       [⟨JsValue.function 2, [CbArg.null, CbArg.boolean true]⟩,
        ⟨JsValue.function 3, [CbArg.null]⟩,
        ⟨JsValue.function 4, [CbArg.null, CbArg.rows [["row"]]]⟩])
    ∧ (runSeq (scripted {})
      [(Method.Close, destroyArgs),
       (Method.Prepare, [JsValue.string "SELECT 2", JsValue.function 2]),
       (Method.Bind, [JsValue.array [], JsValue.function 3]),
       (Method.Execute, [JsValue.function 4])] preparedZero).map
        (fun w1 => (w1.calls.drop 5, w1.callbacks.drop 2))
    = some
      ([Call.SQLPrepare 0 "SELECT 2" 0, Call.SQLNumParams 0 0,
        Call.DescribeParameters 0 0 0, Call.StoreBindValues 0,
        Call.BindParameters 0 0 0, Call.SQLExecute 0 0, Call.RetrieveData 0 0],
       [⟨JsValue.function 2, [CbArg.null, CbArg.boolean true]⟩,
        ⟨JsValue.function 3, [CbArg.null]⟩,
        ⟨JsValue.function 4, [CbArg.null, CbArg.rows [["row"]]]⟩]) := by
  constructor <;> decide

/-! ## The claims -/

/-- C1 (failing input): a statement prepared with zero parameters is bound with an array
of 65536 values.  The cast of the length to SQLSMALLINT gives 0, the comparison with the
parameter count finds no difference, `ODBC::StoreBindValues` is called with the 65536
values, the bind worker is queued and its callback receives a null error. -/
theorem Bind_accepts_65536_values_for_zero_parameters :
    call (scripted {}) Method.Prepare prepareArgs created = some preparedZero
    ∧ invoke (scripted {}) Method.Bind [longArray, JsValue.function 2] preparedZero
      = { world := { preparedZero with
                     calls := preparedZero.calls ++ [Call.StoreBindValues 65536] }
          exception := none
          queued := some (AsyncWorker.bind (JsValue.function 2)) }
    ∧ call (scripted {}) Method.Bind [longArray, JsValue.function 2] preparedZero
      = some { preparedZero with
          calls := preparedZero.calls ++
            [Call.StoreBindValues 65536, Call.BindParameters 7 0 0]
          callbacks := preparedZero.callbacks ++ [⟨JsValue.function 2, [CbArg.null]⟩] } := by
  have hb : invoke (scripted {}) Method.Bind [longArray, JsValue.function 2] preparedZero
      = { world := { preparedZero with
                     calls := preparedZero.calls ++ [Call.StoreBindValues 65536] }
          exception := none
          queued := some (AsyncWorker.bind (JsValue.function 2)) } := by
    unfold longArray
    rw [Bind_accepts _ _ _ _ [] rfl (by rw [List.length_replicate]; decide)]
    rw [List.length_replicate, overlay_nil]
    rfl
  refine ⟨by decide, hb, ?_⟩
  unfold call
  rw [hb]
  rfl

/-- C2 (failing input): a close with the destroy option on a live statement, then
execute.  The close frees the statement data; the execute is not refused: its worker is
queued, reads the handle from the freed data and calls SQLExecute with it, and the
callback receives what the driver answered, null and rows after a succeeded status, the
diagnostic text otherwise.  A prepare after the close is queued in the same way. -/
theorem Execute_after_destroy_calls_driver {σ : Type} (ext : External σ) (w : World σ)
    (n : Int) (cb1 cb2 : Nat) (sql : String)
    (hd : toInt32 n = ext.SQL_DESTROY) (hlive : w.data.hSTMT ≠ 0) :
    ∃ w1, call ext Method.Close [JsValue.number n, JsValue.function cb1] w = some w1 ∧
      w1.data = freedBy ext w ∧
      invoke ext Method.Prepare [JsValue.string sql, JsValue.function cb2] w1 =
        { world := { w1 with data := { w1.data with sql := sql } }
          exception := none
          queued := some (AsyncWorker.prepare (JsValue.function cb2)) } ∧
      (invoke ext Method.Execute [JsValue.function cb2] w1).exception = none ∧
      ∃ w2 args rest, call ext Method.Execute [JsValue.function cb2] w1 = some w2 ∧
        w2.calls = w1.calls ++
          Call.SQLExecute (freedBy ext w).hSTMT
            (ext.SQLExecute w1.drv (freedBy ext w).hSTMT).2 :: rest ∧
        w2.callbacks = w1.callbacks ++ [⟨JsValue.function cb2, args⟩] ∧
        (SQL_SUCCEEDED (ext.SQLExecute w1.drv (freedBy ext w).hSTMT).2 = true →
          args = [CbArg.null, CbArg.rows (ext.ProcessDataForNapi w2.data)]) ∧
        (SQL_SUCCEEDED (ext.SQLExecute w1.drv (freedBy ext w).hSTMT).2 = false →
          args = [CbArg.error (ext.GetSQLError
            (ext.SQLExecute w1.drv (freedBy ext w).hSTMT).1
            (freedBy ext w).hSTMT msgExecute).2]) := by
  obtain ⟨w1, _, hcall, hdata, _⟩ := call_Close_destroy_live ext w n cb1 hd hlive
  refine ⟨w1, hcall, hdata, ?_, ?_, ?_⟩
  · simp [invoke, ODBCStatement.Prepare, arg, JsValue.IsString, JsValue.IsFunction,
      JsValue.ToString]
  · simp [invoke, ODBCStatement.Execute, arg, JsValue.IsFunction]
  · have hh : w1.data.hSTMT = (freedBy ext w).hSTMT := by rw [hdata]
    rw [← hh]
    by_cases hs : SQL_SUCCEEDED (ext.SQLExecute w1.drv w1.data.hSTMT).2 = true
    · refine ⟨_, _, _, call_Execute_ok ext w1 cb2 hs, rfl, rfl, fun _ => rfl, ?_⟩
      intro hf
      rw [hf] at hs
      cases hs
    · have hf : SQL_SUCCEEDED (ext.SQLExecute w1.drv w1.data.hSTMT).2 = false := by
        simpa using hs
      refine ⟨_, _, _, call_Execute_fail ext w1 cb2 hf, rfl, rfl, ?_, fun _ => rfl⟩
      intro h
      exact absurd h hs

theorem Execute_after_destroy_calls_driver_witness :
    (toInt32 9999 = (scripted { freed := overwritten }).SQL_DESTROY ∧
      preparedZero.data.hSTMT ≠ 0) ∧
    ∃ w1 w2 rest,
      call (scripted { freed := overwritten }) Method.Close
        [JsValue.number 9999, JsValue.function 1] preparedZero = some w1 ∧
      (invoke (scripted { freed := overwritten }) Method.Execute
        [JsValue.function 2] w1).exception = none ∧
      call (scripted { freed := overwritten }) Method.Execute [JsValue.function 2] w1
        = some w2 ∧
      w2.calls = w1.calls ++ Call.SQLExecute 4242 0 :: rest ∧
      w2.callbacks = w1.callbacks ++
        [⟨JsValue.function 2,
          [CbArg.null,
           CbArg.rows ((scripted { freed := overwritten }).ProcessDataForNapi w2.data)]⟩] := by
  obtain ⟨w1, hclose, _, _, hexc, w2, args, rest, hexec, hcalls, hcb, hok, _⟩ :=
    Execute_after_destroy_calls_driver (scripted { freed := overwritten }) preparedZero
      9999 1 2 "SELECT 2" (by decide) (by decide)
  refine ⟨⟨by decide, by decide⟩, w1, w2, rest, hclose, hexc, hexec, hcalls, ?_⟩
  rw [hcb, hok rfl]

/-- C3 (failing input): two closes with the destroy option in succession on a live
statement.  The first frees the statement data; the second reads the handle and the
status from the freed data.  If the handle read there is not null, SQLFreeStmt and
SQLFreeHandle are called a second time, with that value; if it is null, the callback of
the second close receives a null error exactly when the status read from the freed data
is a succeeded status. -/
theorem second_destroy_reads_freed_data {σ : Type} (ext : External σ) (w : World σ)
    (n : Int) (cb1 cb2 : Nat)
    (hd : toInt32 n = ext.SQL_DESTROY) (hlive : w.data.hSTMT ≠ 0) :
    ∃ w1 w2 args,
      call ext Method.Close [JsValue.number n, JsValue.function cb1] w = some w1 ∧
      w1.data = freedBy ext w ∧
      call ext Method.Close [JsValue.number n, JsValue.function cb2] w1 = some w2 ∧
      w2.callbacks = w1.callbacks ++ [⟨JsValue.function cb2, args⟩] ∧
      ((freedBy ext w).hSTMT ≠ 0 →
        ∃ rest, w2.calls = w1.calls ++
          Call.SQLFreeStmt (freedBy ext w).hSTMT SQL_CLOSE
              (ext.SQLFreeStmt w1.drv (freedBy ext w).hSTMT SQL_CLOSE).2 ::
            Call.SQLFreeHandle (freedBy ext w).hSTMT
              (ext.SQLFreeHandle (ext.SQLFreeStmt w1.drv (freedBy ext w).hSTMT SQL_CLOSE).1
                (freedBy ext w).hSTMT).2 :: rest) ∧
      ((freedBy ext w).hSTMT = 0 →
        w2.calls = w1.calls ++
          (if SQL_SUCCEEDED (freedBy ext w).sqlReturnCode = true then []
           else [Call.GetSQLError 0]) ∧
        (args = [CbArg.null] ↔ SQL_SUCCEEDED (freedBy ext w).sqlReturnCode = true)) := by
  obtain ⟨w1, _, hcall, hdata, _⟩ := call_Close_destroy_live ext w n cb1 hd hlive
  by_cases h0 : w1.data.hSTMT = 0
  · obtain ⟨w2, args, hcall2, _, hcalls2, hcb2, hargs2⟩ :=
      call_Close_destroy_null ext w1 n cb2 hd h0
    rw [hdata] at h0 hcalls2 hargs2
    refine ⟨w1, w2, args, hcall, hdata, hcall2, hcb2, fun hne => absurd h0 hne,
      fun _ => ⟨hcalls2, hargs2⟩⟩
  · obtain ⟨w2, args, hcall2, _, hcalls2, hcb2, _⟩ :=
      call_Close_destroy_live ext w1 n cb2 hd h0
    rw [hdata] at h0 hcalls2
    exact ⟨w1, w2, args, hcall, hdata, hcall2, hcb2, fun _ => ⟨_, hcalls2⟩,
      fun he => absurd he h0⟩

theorem second_destroy_reads_freed_data_witness :
    (toInt32 9999 = (scripted { freed := overwritten }).SQL_DESTROY ∧
      created.data.hSTMT ≠ 0) ∧
    ∃ w1 w2 args rest,
      call (scripted { freed := overwritten }) Method.Close
        [JsValue.number 9999, JsValue.function 1] created = some w1 ∧
      call (scripted { freed := overwritten }) Method.Close
        [JsValue.number 9999, JsValue.function 2] w1 = some w2 ∧
      w2.callbacks = w1.callbacks ++ [⟨JsValue.function 2, args⟩] ∧
      w2.calls = w1.calls ++
        Call.SQLFreeStmt 4242 SQL_CLOSE 0 :: Call.SQLFreeHandle 4242 0 :: rest := by
  obtain ⟨w1, w2, args, hfirst, _, hsecond, hcb, hlive, _⟩ :=
    second_destroy_reads_freed_data (scripted { freed := overwritten }) created 9999 1 2
      (by decide) (by decide)
  obtain ⟨rest, hcalls⟩ := hlive (by decide)
  exact ⟨⟨by decide, by decide⟩, w1, w2, args, rest, hfirst, hsecond, hcb, hcalls⟩

/-- C5: when SQLPrepare, SQLNumParams and DescribeParameters all succeed and the driver
reports a parameter count `n ≥ 0` (the SQLSMALLINT it wrote), the prepare call completes
with a null error, the statement then holds parameter count `n` and exactly `n`
descriptors, and a following bind of exactly `n` values is not answered with the
parameter-count error: its worker is queued and no callback is called by the check. -/
theorem Prepare_success_then_Bind_accepted {σ : Type} (ext : External σ) (w : World σ)
    (sql : String) (cb : Nat) (v : Int)
    (h1 : SQL_SUCCEEDED (prepareStep ext w sql).2 = true)
    (h2 : SQL_SUCCEEDED (numParamsStep ext w sql).2.1 = true)
    (hv : (numParamsStep ext w sql).2.2 = some v)
    (hn : 0 ≤ toSQLSMALLINT v)
    (h3 : SQL_SUCCEEDED (describeStep ext w sql).2.1 = true) :
    ∃ w1 ps, call ext Method.Prepare [JsValue.string sql, JsValue.function cb] w = some w1 ∧
      w1.callbacks = w.callbacks ++
        [⟨JsValue.function cb, [CbArg.null, CbArg.boolean true]⟩] ∧
      w1.data.parameterCount = toSQLSMALLINT v ∧
      w1.data.parameters = some ps ∧
      (ps.length : Int) = toSQLSMALLINT v ∧
      ∀ (vals : List Prim) (cb2 : Nat), (vals.length : Int) = toSQLSMALLINT v →
        (invoke ext Method.Bind [JsValue.array vals, JsValue.function cb2] w1).queued
          = some (AsyncWorker.bind (JsValue.function cb2)) ∧
        (invoke ext Method.Bind [JsValue.array vals, JsValue.function cb2] w1).world.callbacks
          = w1.callbacks ∧
        (invoke ext Method.Bind [JsValue.array vals, JsValue.function cb2] w1).exception
          = none := by
  have hcount : countAfter ext w sql = toSQLSMALLINT v := by
    simp [countAfter, hv]
  have hrange : toSQLSMALLINT v < 32768 := by
    unfold toSQLSMALLINT
    omega
  rw [call_Prepare_eq, run_eq]
  have hexec := prepare_exec_ok ext { w with data := { w.data with sql := sql } }
    h1 h2 (by show 0 ≤ countAfter ext w sql; rw [hcount]; exact hn) h3
  simp only [AsyncWorker.Execute, hexec, Option.map_some']
  refine ⟨_, _, rfl, rfl, hcount, rfl, ?_, ?_⟩
  · rw [overlay_length, List.length_replicate]
    show ((countAfter ext w sql).toNat : Int) = _
    rw [hcount]
    exact Int.toNat_of_nonneg hn
  · intro vals cb2 hlen
    have hc : toSQLSMALLINT (vals.length : Int) = toSQLSMALLINT v := by
      rw [hlen]
      exact toSQLSMALLINT_of_range _ hn hrange
    rw [Bind_accepts ext _ vals cb2 _ rfl (by
      show countAfter ext w sql = _
      rw [hcount, hc])]
    exact ⟨rfl, rfl, rfl⟩

theorem Prepare_success_then_Bind_accepted_witness :
    ∃ w1 ps, call (scripted { count := some 2 }) Method.Prepare
        [JsValue.string "SELECT ? + ? AS total", JsValue.function 1] created = some w1 ∧
      w1.callbacks = created.callbacks ++
        [⟨JsValue.function 1, [CbArg.null, CbArg.boolean true]⟩] ∧
      w1.data.parameterCount = toSQLSMALLINT 2 ∧
      w1.data.parameters = some ps ∧
      (ps.length : Int) = toSQLSMALLINT 2 ∧
      ∀ (vals : List Prim) (cb2 : Nat), (vals.length : Int) = toSQLSMALLINT 2 →
        (invoke (scripted { count := some 2 }) Method.Bind
            [JsValue.array vals, JsValue.function cb2] w1).queued
          = some (AsyncWorker.bind (JsValue.function cb2)) ∧
        (invoke (scripted { count := some 2 }) Method.Bind
            [JsValue.array vals, JsValue.function cb2] w1).world.callbacks
          = w1.callbacks ∧
        (invoke (scripted { count := some 2 }) Method.Bind
            [JsValue.array vals, JsValue.function cb2] w1).exception
          = none :=
  Prepare_success_then_Bind_accepted (scripted { count := some 2 }) created
    "SELECT ? + ? AS total" 1 2 (by decide) (by decide) (by decide) (by decide) (by decide)

/-- C6 (counterexample): SQLPrepare and SQLNumParams succeed with count 1 and
DescribeParameters fails.  The prepare callback receives an error, yet the parameter
count and the descriptor array are not the ones from before the call, and a following
bind of one value is not treated as a bind on an unprepared statement: the value is
stored and the bind worker is queued. -/
theorem failed_describe_leaves_statement_bindable :
    created.data.parameters = none
    ∧ call (scripted { count := some 1, describe := -1 }) Method.Prepare prepareArgs created
      = some describeFailed
    ∧ describeFailed.data.parameterCount ≠ created.data.parameterCount
    ∧ describeFailed.data.parameters ≠ created.data.parameters
    ∧ invoke (scripted { count := some 1, describe := -1 }) Method.Bind
        [JsValue.array [Prim.number 5], JsValue.function 2] describeFailed
      = { world := { describeFailed with
            data := { describeFailed.data with
                      parameters := some [{ Parameter.new with value := Prim.number 5 }] }
            calls := describeFailed.calls ++ [Call.StoreBindValues 1] }
          exception := none
          queued := some (AsyncWorker.bind (JsValue.function 2)) } := by
  refine ⟨?_, ?_, ?_, ?_, ?_⟩ <;> decide

/-- C6 (amended): a prepare on a statement whose descriptor array is null.  If SQLPrepare
fails, or SQLPrepare succeeds and SQLNumParams fails, the callback receives an error, the
array is still null and the parameter count is as before unless the failing SQLNumParams
wrote one; a later bind is then answered with the parameter-count error, with no bind
call and no worker.  If DescribeParameters fails the callback receives an error as well,
but the statement keeps the count the driver reported and the array allocated for it. -/
theorem Prepare_failure_keeps_what_was_done {σ : Type} (ext : External σ) (w : World σ)
    (sql : String) (cb : Nat)
    (hcreated : w.data.parameters = none)
    (hfail : SQL_SUCCEEDED (prepareStep ext w sql).2 = false ∨
      SQL_SUCCEEDED (numParamsStep ext w sql).2.1 = false ∨
      (0 ≤ countAfter ext w sql ∧ SQL_SUCCEEDED (describeStep ext w sql).2.1 = false)) :
    ∃ w1 message,
      call ext Method.Prepare [JsValue.string sql, JsValue.function cb] w = some w1 ∧
      w1.callbacks = w.callbacks ++ [⟨JsValue.function cb, [CbArg.error message]⟩] ∧
      (SQL_SUCCEEDED (prepareStep ext w sql).2 = false →
        w1.data.parameters = none ∧ w1.data.parameterCount = w.data.parameterCount) ∧
      (SQL_SUCCEEDED (prepareStep ext w sql).2 = true →
        SQL_SUCCEEDED (numParamsStep ext w sql).2.1 = false →
        w1.data.parameters = none ∧
        ((numParamsStep ext w sql).2.2 = none →
          w1.data.parameterCount = w.data.parameterCount)) ∧
      (w1.data.parameters = none → ∀ (vals : List Prim) (cb2 : Nat),
        invoke ext Method.Bind [JsValue.array vals, JsValue.function cb2] w1 =
          { world := { w1 with callbacks := w1.callbacks ++
                        [⟨JsValue.function cb2, [CbArg.error msgBindCount]⟩] }
            exception := none
            queued := none }) ∧
      (SQL_SUCCEEDED (prepareStep ext w sql).2 = true →
        SQL_SUCCEEDED (numParamsStep ext w sql).2.1 = true →
        w1.data.parameterCount = countAfter ext w sql ∧
        ∃ ps, w1.data.parameters = some ps ∧ ps.length = (countAfter ext w sql).toNat) := by
  rw [call_Prepare_eq, run_eq]
  simp only [AsyncWorker.Execute]
  have hbind : ∀ w1 : World σ, w1.data.parameters = none →
      ∀ (vals : List Prim) (cb2 : Nat),
        invoke ext Method.Bind [JsValue.array vals, JsValue.function cb2] w1 =
          { world := { w1 with callbacks := w1.callbacks ++
                        [⟨JsValue.function cb2, [CbArg.error msgBindCount]⟩] }
            exception := none
            queued := none } :=
    fun w1 hnone vals cb2 => Bind_rejects ext w1 vals cb2 (Or.inr hnone)
  by_cases h1 : SQL_SUCCEEDED (prepareStep ext w sql).2 = true
  · by_cases h2 : SQL_SUCCEEDED (numParamsStep ext w sql).2.1 = true
    · have hd : 0 ≤ countAfter ext w sql ∧
          SQL_SUCCEEDED (describeStep ext w sql).2.1 = false := by
        rcases hfail with h | h | h
        · rw [h] at h1; cases h1
        · rw [h] at h2; cases h2
        · exact h
      rw [prepare_exec_fail3 ext { w with data := { w.data with sql := sql } } h1 h2 hd.1 hd.2]
      refine ⟨_, _, rfl, rfl, ?_, ?_, hbind _, ?_⟩
      · intro h; rw [h] at h1; cases h1
      · intro _ h; rw [h] at h2; cases h2
      · intro _ _
        exact ⟨rfl, _, rfl, by rw [overlay_length, List.length_replicate]; rfl⟩
    · have h2f : SQL_SUCCEEDED (numParamsStep ext w sql).2.1 = false := by simpa using h2
      rw [prepare_exec_fail2 ext { w with data := { w.data with sql := sql } } h1 h2f]
      refine ⟨_, _, rfl, rfl, ?_, ?_, hbind _, ?_⟩
      · intro h; rw [h] at h1; cases h1
      · intro _ _
        refine ⟨hcreated, fun hnone => ?_⟩
        show countAfter ext w sql = _
        simp [countAfter, hnone]
      · intro _ h; exact absurd h h2
  · have h1f : SQL_SUCCEEDED (prepareStep ext w sql).2 = false := by simpa using h1
    rw [prepare_exec_fail1 ext { w with data := { w.data with sql := sql } } h1f]
    refine ⟨_, _, rfl, rfl, ?_, ?_, hbind _, ?_⟩
    · intro _; exact ⟨hcreated, rfl⟩
    · intro h; exact absurd h h1
    · intro h; exact absurd h h1

theorem Prepare_failure_keeps_what_was_done_witness :
    (created.data.parameters = none ∧
      SQL_SUCCEEDED (prepareStep (scripted { prepare := -1 }) created "SELECT 1").2 = false) ∧
    ∃ w1 message,
      call (scripted { prepare := -1 }) Method.Prepare
        [JsValue.string "SELECT 1", JsValue.function 1] created = some w1 ∧
      w1.callbacks = created.callbacks ++ [⟨JsValue.function 1, [CbArg.error message]⟩] :=
  ⟨⟨by decide, by decide⟩,
   (Prepare_failure_keeps_what_was_done (scripted { prepare := -1 }) created "SELECT 1" 1
     (by decide) (Or.inl (by decide))).imp fun _ h => h.imp fun _ h => ⟨h.1, h.2.1⟩⟩

/-- C7: when SQLExecute returns a status that is not a succeeded status, the execute call
completes with one error, whose text is the diagnostic fetched from the driver for the
statement handle; `ODBC::RetrieveData` is not called; handle, parameter count and
descriptors are as before.  A following execute whose SQLExecute succeeds, with no bind
in between, retrieves the data and hands null and the rows to its callback, the
descriptors still being the ones bound before the failure. -/
theorem failed_Execute_keeps_binding {σ : Type} (ext : External σ) (w : World σ) (cb : Nat)
    (hf : SQL_SUCCEEDED (ext.SQLExecute w.drv w.data.hSTMT).2 = false) :
    ∃ w1, call ext Method.Execute [JsValue.function cb] w = some w1 ∧
      w1.callbacks = w.callbacks ++
        [⟨JsValue.function cb,
          [CbArg.error (ext.GetSQLError (ext.SQLExecute w.drv w.data.hSTMT).1
            w.data.hSTMT msgExecute).2]⟩] ∧
      w1.calls = w.calls ++
        [Call.SQLExecute w.data.hSTMT (ext.SQLExecute w.drv w.data.hSTMT).2,
         Call.GetSQLError w.data.hSTMT] ∧
      w1.data.hSTMT = w.data.hSTMT ∧
      w1.data.parameterCount = w.data.parameterCount ∧
      w1.data.parameters = w.data.parameters ∧
      w1.data.storedRows = w.data.storedRows ∧
      ∀ cb2 : Nat, SQL_SUCCEEDED (ext.SQLExecute w1.drv w1.data.hSTMT).2 = true →
        ∃ w2, call ext Method.Execute [JsValue.function cb2] w1 = some w2 ∧
          w2.callbacks = w1.callbacks ++
            [⟨JsValue.function cb2,
              [CbArg.null, CbArg.rows (ext.ProcessDataForNapi w2.data)]⟩] ∧
          w2.calls = w1.calls ++
            [Call.SQLExecute w.data.hSTMT (ext.SQLExecute w1.drv w.data.hSTMT).2,
             Call.RetrieveData w.data.hSTMT w2.data.sqlReturnCode] ∧
          w2.data.hSTMT = w.data.hSTMT ∧
          w2.data.parameterCount = w.data.parameterCount ∧
          w2.data.parameters = w.data.parameters := by
  refine ⟨_, call_Execute_fail ext w cb hf, rfl, rfl, rfl, rfl, rfl, rfl, ?_⟩
  intro cb2 hs
  exact ⟨_, call_Execute_ok ext _ cb2 hs, rfl, rfl, rfl, rfl, rfl⟩

theorem failed_Execute_keeps_binding_witness :
    SQL_SUCCEEDED ((scripted { execute := [-1, 0] }).SQLExecute preparedZero.drv
      preparedZero.data.hSTMT).2 = false ∧
    ∃ w1, call (scripted { execute := [-1, 0] }) Method.Execute [JsValue.function 3]
        preparedZero = some w1 ∧
      w1.callbacks = preparedZero.callbacks ++
        [⟨JsValue.function 3, [CbArg.error (msgExecute ++ " on handle 7")]⟩] ∧
      w1.calls = preparedZero.calls ++ [Call.SQLExecute 7 (-1), Call.GetSQLError 7] :=
  ⟨by decide,
   (failed_Execute_keeps_binding (scripted { execute := [-1, 0] }) preparedZero 3
     (by decide)).imp fun _ h => ⟨h.1, h.2.1, h.2.2.1⟩⟩

/-- C8 (counterexample): a well-formed prepare is dispatched, its driver answers
SQLPrepare and SQLNumParams with success and reports the count -1; the worker does not
get past the allocation of the descriptor array and the call never completes: no
callback is called. -/
theorem Prepare_with_negative_count_never_calls_back :
    wellFormed Method.Prepare prepareArgs = true
    ∧ invoke (scripted { count := some (-1) }) Method.Prepare prepareArgs created
      = { world := { created with data := { created.data with sql := "SELECT 1" } }
          exception := none
          queued := some (AsyncWorker.prepare (JsValue.function 1)) }
    ∧ call (scripted { count := some (-1) }) Method.Prepare prepareArgs created = none := by
  refine ⟨?_, ?_, ?_⟩ <;> decide

/-- C8 (amended): every call of Prepare, Bind, Execute or Close with a well-formed
argument shape, a Prepare provided its driver does not report a negative parameter count
with succeeded statuses, completes with exactly one call of a callback: the function the
caller gave, with an error as only argument or with null followed by a payload that
holds no error.  A Bind whose check fails has queued no worker, has made no call, and
its one callback call carries the parameter-count error; every other such call has queued
one worker, constructed with that function. -/
theorem callback_exactly_once {σ : Type} (ext : External σ) (m : Method)
    (info : List JsValue) (w : World σ)
    (hshape : wellFormed m info = true)
    (ha : m = Method.Prepare → allocationDefined ext w (arg info 0).ToString) :
    ∃ w1 entry, call ext m info w = some w1 ∧
      w1.callbacks = w.callbacks ++ [entry] ∧
      entry.callee = arg info (callbackPosition m) ∧
      entry.callee.IsFunction = true ∧
      completionShape entry.args = true ∧
      (m = Method.Bind → bindMismatch w.data info = true →
        (invoke ext m info w).queued = none ∧
        entry.args = [CbArg.error msgBindCount] ∧
        w1.calls = w.calls) ∧
      (¬ (m = Method.Bind ∧ bindMismatch w.data info = true) →
        ∃ k, (invoke ext m info w).queued = some k ∧ k.Callback = entry.callee) := by
  obtain ⟨hfun, _, _, hcase⟩ := invoke_wellFormed ext m info w hshape
  rcases hcase with ⟨hmB, hmis, hinv⟩ | ⟨k, hq, hcb, hsame, hnomis, _, _, hprep⟩
  · refine ⟨{ w with callbacks := w.callbacks ++ [⟨arg info 1, [CbArg.error msgBindCount]⟩] },
      ⟨arg info 1, [CbArg.error msgBindCount]⟩, ?_, rfl, ?_, ?_, rfl, ?_,
      fun h => absurd ⟨hmB, hmis⟩ h⟩
    · unfold call
      rw [hinv]
      rfl
    · subst_vars
      rfl
    · subst_vars
      exact hfun
    · intro _ _
      rw [hinv]
      exact ⟨rfl, rfl, rfl⟩
  · obtain ⟨r, hr⟩ := Execute_isSome ext k (invoke ext m info w).world (by
      intro cb hk
      obtain ⟨hm, hw⟩ := hprep cb hk
      rw [hw]
      exact ha hm)
    obtain ⟨w2, e⟩ := r
    obtain ⟨hcb2, _⟩ := Execute_frame ext k _ w2 e hr
    have hno : ∀ args : List CbArg, m = Method.Bind → bindMismatch w.data info = true →
        (invoke ext m info w).queued = none ∧ args = [CbArg.error msgBindCount] ∧
        w2.calls = w.calls := by
      intro args hm hmis
      rw [hnomis hm] at hmis
      cases hmis
    have hfun2 : k.Callback.IsFunction = true := by
      rw [hcb]
      exact hfun
    cases e with
    | none =>
      refine ⟨{ w2 with callbacks := w2.callbacks ++ [⟨k.Callback, k.okArguments ext w2⟩] },
        ⟨k.Callback, k.okArguments ext w2⟩, ?_, ?_, hcb, hfun2, okArguments_shape ext k w2,
        hno _, fun _ => ⟨k, hq, rfl⟩⟩
      · unfold call complete
        rw [hq]
        simp only [run_eq, hr, Option.map_some']
      · simp only [hcb2, hsame]
    | some message =>
      refine ⟨{ w2 with callbacks := w2.callbacks ++ [⟨k.Callback, [CbArg.error message]⟩] },
        ⟨k.Callback, [CbArg.error message]⟩, ?_, ?_, hcb, hfun2, rfl, hno _,
        fun _ => ⟨k, hq, rfl⟩⟩
      · unfold call complete
        rw [hq]
        simp only [run_eq, hr, Option.map_some']
      · simp only [hcb2, hsame]

theorem callback_exactly_once_witness :
    (wellFormed Method.Bind [JsValue.array [Prim.number 1], JsValue.function 2] = true ∧
      bindMismatch preparedZero.data [JsValue.array [Prim.number 1], JsValue.function 2]
        = true) ∧
    ∃ w1 entry,
      call (scripted {}) Method.Bind [JsValue.array [Prim.number 1], JsValue.function 2]
        preparedZero = some w1 ∧
      w1.callbacks = preparedZero.callbacks ++ [entry] ∧
      entry.callee = JsValue.function 2 ∧
      entry.args = [CbArg.error msgBindCount] ∧
      w1.calls = preparedZero.calls :=
  ⟨⟨by decide, by decide⟩,
   (callback_exactly_once (scripted {}) Method.Bind
     [JsValue.array [Prim.number 1], JsValue.function 2] preparedZero (by decide)
     (fun h => Method.noConfusion h)).imp fun _ h => h.imp fun _ h =>
       ⟨h.1, h.2.1, h.2.2.1, (h.2.2.2.2.2.1 rfl (by decide)).2.1,
        (h.2.2.2.2.2.1 rfl (by decide)).2.2⟩⟩

/-- C9 (counterexample): close with the option 65537, which is not the destroy option.
The `int` is converted to the SQLUSMALLINT parameter of SQLFreeStmt, so the one call the
driver receives carries the option 1 (SQL_DROP), not 65537. -/
theorem Close_65537_reaches_driver_as_1 :
    toInt32 65537 = 65537
    ∧ toInt32 65537 ≠ (scripted {}).SQL_DESTROY
    ∧ call (scripted {}) Method.Close [JsValue.number 65537, JsValue.function 4] preparedZero
      = some { preparedZero with
          calls := preparedZero.calls ++ [Call.SQLFreeStmt 7 1 0]
          callbacks := preparedZero.callbacks ++ [⟨JsValue.function 4, [CbArg.null]⟩] }
    ∧ Call.SQLFreeStmt 7 1 0 ≠ Call.SQLFreeStmt 7 65537 0 := by
  refine ⟨?_, ?_, ?_, ?_⟩ <;> decide

/-- C9 (amended): a close whose option is not the destroy option calls SQLFreeStmt once,
on the statement handle, with that option converted to the 16-bit unsigned parameter of
the driver (the option itself when it lies in 0..65535), and never SQLFreeHandle; the
only other call is the diagnostic one after a failure.  Handle reference, parameter
count, descriptors and the liveness of the statement data are as before, and the callback
receives a null error exactly when the status of that SQLFreeStmt is a succeeded
status. -/
theorem soft_Close_frees_nothing {σ : Type} (ext : External σ) (w : World σ) (n : Int)
    (cb : Nat) (hsoft : toInt32 n ≠ ext.SQL_DESTROY) :
    ∃ w1 args, call ext Method.Close [JsValue.number n, JsValue.function cb] w = some w1 ∧
      w1.calls = w.calls ++
        Call.SQLFreeStmt w.data.hSTMT (toSQLUSMALLINT (toInt32 n))
            (ext.SQLFreeStmt w.drv w.data.hSTMT (toSQLUSMALLINT (toInt32 n))).2 ::
          (if SQL_SUCCEEDED
              (ext.SQLFreeStmt w.drv w.data.hSTMT (toSQLUSMALLINT (toInt32 n))).2 = true
           then [] else [Call.GetSQLError w.data.hSTMT]) ∧
      (0 ≤ toInt32 n → toInt32 n < 65536 → toSQLUSMALLINT (toInt32 n) = toInt32 n) ∧
      w1.data.hSTMT = w.data.hSTMT ∧
      w1.data.parameterCount = w.data.parameterCount ∧
      w1.data.parameters = w.data.parameters ∧
      w1.data.deleted = w.data.deleted ∧
      w1.callbacks = w.callbacks ++ [⟨JsValue.function cb, args⟩] ∧
      (args = [CbArg.null] ↔
        SQL_SUCCEEDED
          (ext.SQLFreeStmt w.drv w.data.hSTMT (toSQLUSMALLINT (toInt32 n))).2 = true) ∧
      (args ≠ [CbArg.null] → ∃ message, args = [CbArg.error message]) := by
  have hrange : 0 ≤ toInt32 n → toInt32 n < 65536 →
      toSQLUSMALLINT (toInt32 n) = toInt32 n := by
    intro h0 h1
    unfold toSQLUSMALLINT
    omega
  by_cases hs : SQL_SUCCEEDED
      (ext.SQLFreeStmt w.drv w.data.hSTMT (toSQLUSMALLINT (toInt32 n))).2 = true
  · refine ⟨_, [CbArg.null], call_Close_soft_ok ext w n cb hsoft hs, ?_, hrange, rfl, rfl,
      rfl, rfl, rfl, ?_, ?_⟩
    · simp [hs]
    · simp [hs]
    · simp
  · have hf : SQL_SUCCEEDED
        (ext.SQLFreeStmt w.drv w.data.hSTMT (toSQLUSMALLINT (toInt32 n))).2 = false := by
      simpa using hs
    refine ⟨_, _, call_Close_soft_fail ext w n cb hsoft hf, ?_, hrange, rfl, rfl, rfl, rfl,
      rfl, ?_, ?_⟩
    · simp [hf]
    · simp [hf]
    · intro _; exact ⟨_, rfl⟩

theorem soft_Close_frees_nothing_witness :
    toInt32 0 ≠ (scripted { freeStmt := -1 }).SQL_DESTROY ∧
    ∃ (w1 : World Nat) (args : List CbArg),
      call (scripted { freeStmt := -1 }) Method.Close
        [JsValue.number 0, JsValue.function 4] preparedZero = some w1 ∧
      w1.data.hSTMT = preparedZero.data.hSTMT ∧
      w1.callbacks = preparedZero.callbacks ++ [⟨JsValue.function 4, args⟩] ∧
      (args = [CbArg.null] ↔
        SQL_SUCCEEDED ((scripted { freeStmt := -1 }).SQLFreeStmt preparedZero.drv
          preparedZero.data.hSTMT (toSQLUSMALLINT (toInt32 0))).2 = true) :=
  ⟨by decide,
   (soft_Close_frees_nothing (scripted { freeStmt := -1 }) preparedZero 0 4
     (by decide)).imp fun _ h => h.imp fun _ h =>
       ⟨h.1, h.2.2.2.1, h.2.2.2.2.2.2.2.1, h.2.2.2.2.2.2.2.2.1⟩⟩

/-- C10 (counterexample): two calls with a failing status that is not followed by the
diagnostic call.  In a close with the destroy option the failing SQLFreeStmt is followed
by SQLFreeHandle, whatever is read from the statement data afterwards; in an execute, the
failing retrieval after a successful SQLExecute is followed by nothing, and the callback
receives a null error. -/
theorem failing_status_without_diagnostic :
    (∀ f : QueryData → QueryData,
      (call (scripted { freeStmt := -1, freed := f }) Method.Close destroyArgs created).map
          (fun w1 => w1.calls.take 2)
        = some [Call.SQLFreeStmt 7 0 (-1), Call.SQLFreeHandle 7 0])
    ∧ diagnosed 7 [Call.SQLFreeStmt 7 0 (-1), Call.SQLFreeHandle 7 0] = false
    ∧ call (scripted { retrieve := -1 }) Method.Execute [JsValue.function 3] preparedZero
      = some { preparedZero with
          data := { preparedZero.data with sqlReturnCode := -1, storedRows := [["row"]] }
          drv := 1
          calls := preparedZero.calls ++ [Call.SQLExecute 7 0, Call.RetrieveData 7 (-1)]
          callbacks := preparedZero.callbacks ++
            [⟨JsValue.function 3, [CbArg.null, CbArg.rows [["row"]]]⟩] }
    ∧ diagnosed 7 [Call.SQLExecute 7 0, Call.RetrieveData 7 (-1)] = false := by
  refine ⟨?_, by decide, by decide, by decide⟩
  intro f
  obtain ⟨w1, _, hcall, _, hcalls, _⟩ :=
    call_Close_destroy_live (scripted { freeStmt := -1, freed := f }) created 9999 1
      rfl (by decide)
  rw [show destroyArgs = [JsValue.number 9999, JsValue.function 1] from rfl, hcall,
    Option.map_some', hcalls]
  rfl

/-- C10 (amended): in every call of Prepare, Bind or Execute and every Close whose
option is not the destroy option (a Prepare provided its driver does not report a
negative parameter count with succeeded statuses), each call that returns a status is
made on the handle of the statement and each one whose status is not a succeeded status
is followed at once by `ODBC::GetSQLError` on that handle, with one exception: the
retrieval that follows a successful SQLExecute, whose status is not examined.  The
handle reference is the same after the call. -/
theorem failing_call_diagnosed_at_once {σ : Type} (ext : External σ) (m : Method)
    (info : List JsValue) (w : World σ)
    (hsoft : ¬ (m = Method.Close ∧ (arg info 0).Int32Value = ext.SQL_DESTROY))
    (ha : m = Method.Prepare → allocationDefined ext w (arg info 0).ToString) :
    ∃ w1 new, call ext m info w = some w1 ∧
      w1.calls = w.calls ++ new ∧
      w1.data.hSTMT = w.data.hSTMT ∧
      (diagnosed w.data.hSTMT new = true ∨
        ∃ rc rc2, m = Method.Execute ∧ SQL_SUCCEEDED rc = true ∧
          new = [Call.SQLExecute w.data.hSTMT rc, Call.RetrieveData w.data.hSTMT rc2]) := by
  by_cases hshape : wellFormed m info = true
  · obtain ⟨_, _, hh, hcase⟩ := invoke_wellFormed ext m info w hshape
    rcases hcase with ⟨_, _, hinv⟩ | ⟨k, hq, _, _, _, ⟨pre, hpre, hsilent, hexec⟩, hdest, hprep⟩
    · refine ⟨{ w with callbacks := w.callbacks ++
          [⟨arg info 1, [CbArg.error msgBindCount]⟩] }, [], ?_, by simp, rfl, Or.inl rfl⟩
      unfold call
      rw [hinv]
      rfl
    · obtain ⟨r, hr⟩ := Execute_isSome ext k (invoke ext m info w).world (by
        intro cb hk
        obtain ⟨hm, hw⟩ := hprep cb hk
        rw [hw]
        exact ha hm)
      obtain ⟨w2, e⟩ := r
      obtain ⟨_, new, hnew, hd⟩ := Execute_frame ext k _ w2 e hr
      have hk : k.isDestroy ext = false := by
        cases hb : k.isDestroy ext with
        | false => rfl
        | true => exact absurd (hdest.mp hb) hsoft
      obtain ⟨h1, h2⟩ := hd hk
      rw [hh] at h1 h2
      obtain ⟨w1, _, hcall, hdata, hcalls, _⟩ := call_of_queued ext m info w w2 k e hq hr
      refine ⟨w1, pre ++ new, hcall, ?_, ?_, ?_⟩
      · simp only [hcalls, hnew, hpre, List.append_assoc]
      · rw [hdata]
        exact h1
      · rcases h2 with h2 | ⟨cb, rc, rc2, hkx, hs, hn⟩
        · left
          rw [diagnosed_append_of_silent _ _ _ hsilent]
          exact h2
        · right
          have hp : pre = [] := hexec ⟨cb, hkx⟩
          have hm : m = Method.Execute := by
            cases m with
            | Execute => rfl
            | Prepare =>
              simp only [invoke, ODBCStatement.Prepare] at hq
              split at hq <;> simp [hkx] at hq
            | Bind =>
              simp only [invoke, ODBCStatement.Bind] at hq
              split at hq
              · simp at hq
              · split at hq <;> simp [hkx] at hq
            | Close =>
              simp only [invoke, ODBCStatement.Close] at hq
              split at hq <;> simp [hkx] at hq
          exact ⟨rc, rc2, hm, hs, by rw [hp, hn]; rfl⟩
  · have hf : wellFormed m info = false := by simpa using hshape
    have hinv := invoke_malformed ext m info w hf
    refine ⟨w, [], ?_, by simp, rfl, Or.inl rfl⟩
    unfold call
    rw [hinv]
    rfl

theorem failing_call_diagnosed_at_once_witness :
    (¬ (Method.Close = Method.Close ∧
        (arg [JsValue.number 0, JsValue.function 4] 0).Int32Value
          = (scripted { freeStmt := -1 }).SQL_DESTROY)) ∧
    ∃ w1 new,
      call (scripted { freeStmt := -1 }) Method.Close [JsValue.number 0, JsValue.function 4]
        preparedZero = some w1 ∧
      w1.calls = preparedZero.calls ++ new ∧
      w1.data.hSTMT = preparedZero.data.hSTMT ∧
      (diagnosed preparedZero.data.hSTMT new = true ∨
        ∃ rc rc2, Method.Close = Method.Execute ∧ SQL_SUCCEEDED rc = true ∧
          new = [Call.SQLExecute preparedZero.data.hSTMT rc,
                 Call.RetrieveData preparedZero.data.hSTMT rc2]) :=
  ⟨by decide,
   failing_call_diagnosed_at_once (scripted { freeStmt := -1 }) Method.Close
     [JsValue.number 0, JsValue.function 4] preparedZero (by decide)
     (fun h => Method.noConfusion h)⟩

end NodeOdbc
